import Mathlib

/-!
Streamlit frontend: run-state machine, document store, dispatcher and throttle

A shallow embedding of `frontend/src/App.jsx` (the `App` component) and of the
document operations of `frontend/src/WebClient.js`.

* `this.state` of the component is the record `State`; the instance fields that
  live next to it (`connectionManager`, the widget-throttle fields) together
  with the observable effects (envelopes handed to
  `connectionManager.sendMessage`, lines given to `logError`) form `App`.
* Every method is a transition `App → App`; a method that can throw returns
  `Except String App`.
* `setState` is taken at the granularity of one handler call: inside a single
  handler no method reads a field it has itself just set, so the batched and
  the synchronous reading of `setState` agree.
* An Immutable.js `List` of elements is a `List (Option Element)`; `none` is a
  slot holding `undefined`.
* Clock readings are integers (milliseconds); a method that reads `Date.now()`
  takes the reading as an argument.
-/

namespace Streamlit

/-! ## Data model -/

/-- The five run states of `lib/ReportRunState`, as used by `App.jsx`. -/
inductive ReportRunState where
  | NOT_RUNNING
  | RUNNING
  | RERUN_REQUESTED
  | STOP_REQUESTED
  | COMPILATION_ERROR
  deriving DecidableEq, Repr

/-- Modelled from the spec: the members of `lib/ConnectionState` (the file is
not part of the sources; `App.jsx` itself names `INITIAL` and `STATIC`). -/
inductive ConnectionState where
  | INITIAL
  | CONNECTING
  | CONNECTED
  | STATIC
  | DISCONNECTED
  | ERROR
  deriving DecidableEq, Repr

/-- Modelled from the spec: the formats of `Text.proto` that the sources name
(`TextProto.Format.INFO`, `.WARNING`, `.ERROR`); every other format code is
`other`. -/
inductive TextFormat where
  | INFO
  | WARNING
  | ERROR
  | other (code : Nat)
  deriving DecidableEq, Repr

/-- The `type` oneof of an element together with its payload. `text` is the
shape built by `makeElementWithInfoText` and `showSingleTextElement`, `empty`
the placeholder built by `WebClient.clearOldElements`; the payload of every
other variant is not inspected by the code and is kept as a string. -/
inductive ElementBody where
  | text (format : TextFormat) (body : String)
  | empty (unused : Bool)
  | other (type : String) (payload : String)
  deriving DecidableEq, Repr

/-- An element of the report: an immutable map with a `type` oneof and,
once stamped, a `reportId` key (`none` when the key is absent). -/
structure Element where
  reportId : Option String
  body : ElementBody
  deriving DecidableEq, Repr

/-- The `elements` list of the state. -/
abbrev Document := List (Option Element)

/-- The payload of an `addRows` delta; its content is only read by
`lib/dataFrameProto`. -/
structure NamedDataSet where
  payload : String
  deriving DecidableEq, Repr

/-- The `type` oneof of a `Delta`. -/
inductive DeltaType where
  | newElement (element : Element)
  | addRows (namedDataSet : NamedDataSet)
  deriving DecidableEq, Repr

/-- A `Delta` message: the id of the slot and the oneof. -/
structure Delta where
  id : Nat
  type : DeltaType
  deriving DecidableEq, Repr

/-- The `SessionState` protobuf read by `handleSessionStateChanged`. -/
structure SessionState where
  reportIsRunning : Bool
  runOnSave : Bool
  deriving DecidableEq, Repr

/-- The `SessionEvent` protobuf: its `type` oneof. -/
inductive SessionEvent where
  | scriptCompilationException (exception : String)
  | reportChangedOnDisk
  | other (type : String)
  deriving DecidableEq, Repr

/-- The `userSettings` object of the state. -/
structure UserSettings where
  wideMode : Bool
  runOnSave : Bool
  deriving DecidableEq, Repr

/-- Envelopes passed to `sendBackMsg`. `widget` stands for the messages that
widgets pass to `sendThrottledWidgetBackMsg`. -/
inductive BackMsg where
  | rerunScript (commandLine : Option String)
  | stopReport
  | clearCache
  | setRunOnSave (value : Bool)
  | cloudUpload
  | widget (payload : String)
  deriving DecidableEq, Repr

/-- The `dialog` props set by `openDialog`, identified by their `type`. -/
inductive Dialog where
  | scriptCompileError (exception : String)
  | scriptChanged
  | uploadProgress (progress : Nat)
  | uploaded (url : String)
  | warning
  | rerunScript
  | clearCache
  deriving DecidableEq, Repr

/-- The React state `this.state`. `commandLine`, `sharingEnabled` and `dialog`
are absent from the constructor's object and so start out `undefined`. -/
structure State where
  reportId : String
  reportName : Option String
  elements : Document
  userSettings : UserSettings
  showLoginBox : Bool
  reportRunState : ReportRunState
  connectionState : ConnectionState
  commandLine : Option String
  sharingEnabled : Option Bool
  dialog : Option Dialog
  deriving DecidableEq, Repr

/-- Modelled from the spec: the part of `lib/ConnectionManager` that `App`
consumes, namely what `isConnected()` and `isStaticConnection()` answer. -/
structure ConnectionManager where
  isConnected : Bool
  isStaticConnection : Bool
  deriving DecidableEq, Repr

/-- The component: its React state, its instance fields, and the effects it
has produced so far (`sent`: arguments of `connectionManager.sendMessage`,
oldest first; `logged`: arguments of `logError`, oldest first). -/
structure App where
  state : State
  connectionManager : Option ConnectionManager
  latestWidgetBackMsg : Option BackMsg
  widgetThrottleTimer : Option Int
  lastBackMsgTime : Option Int
  sent : List BackMsg
  logged : List String
  deriving DecidableEq, Repr

/-! ## Small helpers of the component -/

/-- The effect of `logError(msg)`. -/
def logError (app : App) (msg : String) : App :=
  { app with logged := app.logged ++ [msg] }

/-- The method `isServerConnected`. -/
def isServerConnected (app : App) : Bool :=
  match app.connectionManager with
  | some cm => cm.isConnected
  | none => false

/-- The method `sendBackMsg`. -/
def sendBackMsg (app : App) (msg : BackMsg) : App :=
  match app.connectionManager with
  | some _ => { app with sent := app.sent ++ [msg] }
  | none => logError app "Not connected. Cannot send back message: [object Object]"

/-- The method `openDialog`. -/
def openDialog (app : App) (dialogProps : Dialog) : App :=
  { app with state := { app.state with dialog := some dialogProps } }

/-- The method `closeDialog`. -/
def closeDialog (app : App) : App :=
  { app with state := { app.state with dialog := none } }

/-- The method `saveSettings`. -/
def saveSettings (app : App) (newSettings : UserSettings) : App :=
  let prevRunOnSave := app.state.userSettings.runOnSave
  let runOnSave := newSettings.runOnSave
  let app1 := { app with state := { app.state with userSettings := newSettings } }
  if prevRunOnSave ≠ runOnSave ∧ isServerConnected app1 = true then
    sendBackMsg app1 (BackMsg.setRunOnSave runOnSave)
  else
    app1

/-! ## The run-state machine -/

/-- The new run state computed by the updater of `handleSessionStateChanged`. -/
def nextReportRunState (prev : ReportRunState) (reportIsRunning : Bool) : ReportRunState :=
  if reportIsRunning = true ∧ prev ≠ ReportRunState.STOP_REQUESTED then
    ReportRunState.RUNNING
  else if reportIsRunning = false ∧ prev ≠ ReportRunState.RERUN_REQUESTED ∧
      prev ≠ ReportRunState.COMPILATION_ERROR then
    ReportRunState.NOT_RUNNING
  else
    prev

/-- The method `handleSessionStateChanged`. -/
def handleSessionStateChanged (app : App) (stateChangeProto : SessionState) : App :=
  let prevState := app.state
  { app with state :=
      { prevState with
        userSettings := { prevState.userSettings with runOnSave := stateChangeProto.runOnSave }
        reportRunState := nextReportRunState prevState.reportRunState stateChangeProto.reportIsRunning } }

/-- The method `handleSessionEvent`. `rerunPromptModalDialog` is the constant
`RERUN_PROMPT_MODAL_DIALOG` of `lib/baseconsts`; the call into the session
event dispatcher leaves the component untouched. -/
def handleSessionEvent (rerunPromptModalDialog : Bool) (app : App) (sessionEvent : SessionEvent) : App :=
  match sessionEvent with
  | SessionEvent.scriptCompilationException exception =>
    let app1 := { app with state :=
      { app.state with reportRunState := ReportRunState.COMPILATION_ERROR } }
    openDialog app1 (Dialog.scriptCompileError exception)
  | SessionEvent.reportChangedOnDisk =>
    if rerunPromptModalDialog = true then openDialog app Dialog.scriptChanged else app
  | SessionEvent.other _ => app

/-- The method `rerunScript`. -/
def rerunScript (app : App) (alwaysRunOnSave : Bool) : App :=
  let app1 := closeDialog app
  if isServerConnected app1 = false then
    logError app1 "Cannot rerun script when disconnected from server."
  else if app1.state.reportRunState = ReportRunState.RUNNING ∨
      app1.state.reportRunState = ReportRunState.RERUN_REQUESTED then
    app1
  else
    let app2 := { app1 with state :=
      { app1.state with reportRunState := ReportRunState.RERUN_REQUESTED } }
    let app3 :=
      if alwaysRunOnSave = true then
        saveSettings app2 { app2.state.userSettings with runOnSave := true }
      else app2
    sendBackMsg app3 (BackMsg.rerunScript app3.state.commandLine)

/-- The method `stopReport`. -/
def stopReport (app : App) : App :=
  if isServerConnected app = false then
    logError app "Cannot stop report when disconnected from server."
  else if app.state.reportRunState = ReportRunState.NOT_RUNNING ∨
      app.state.reportRunState = ReportRunState.STOP_REQUESTED then
    app
  else
    let app1 := sendBackMsg app BackMsg.stopReport
    { app1 with state := { app1.state with reportRunState := ReportRunState.STOP_REQUESTED } }

/-! ## The document store -/

/-- The function `addRows` of `lib/dataFrameProto`, a parameter of the model:
given the element found in the slot (`none` for `undefined`) and the rows, it
returns the extended element or throws. -/
abbrev AddRows := Option Element → NamedDataSet → Except String Element

namespace ImmutableList

/-- Immutable.js `List.get(index)`: the value of the slot, `undefined` for a
hole and for an index past the end. -/
def get (elements : Document) (index : Nat) : Option Element :=
  match elements[index]? with
  | some slot => slot
  | none => none

/-- Immutable.js `List.set(index, value)`: inside the list the slot is
replaced; past the end the list grows to `index + 1` slots, the new slots
before `index` holding `undefined`. -/
def set (elements : Document) (index : Nat) (value : Element) : Document :=
  if index < elements.length then
    List.set elements index (some value)
  else
    elements ++ List.replicate (index - elements.length) none ++ [some value]

/-- Immutable.js `List.update(index, updater)` for an updater that returns an
element or throws: the updater is given the current value of the slot and its
result is stored in the slot. -/
def update (elements : Document) (index : Nat)
    (updater : Option Element → Except String Element) : Except String Document :=
  match updater (get elements index) with
  | Except.ok value => Except.ok (set elements index value)
  | Except.error err => Except.error err

end ImmutableList

/-- The function `handleNewElementMessage`. -/
def handleNewElementMessage (element : Element) (reportId : String) : Element :=
  { element with reportId := some reportId }

/-- The function `handleAddRowsMessage`. -/
def handleAddRowsMessage (addRows : AddRows) (element : Option Element)
    (namedDataSet : NamedDataSet) : Except String Element :=
  addRows element namedDataSet

/-- The updater that `applyDelta` passes to `elements.update`: the
`dispatchOneOf` over the delta's `type`. -/
def deltaUpdater (addRows : AddRows) (delta : Delta) (reportId : String)
    (element : Option Element) : Except String Element :=
  match delta.type with
  | DeltaType.newElement newElement => Except.ok (handleNewElementMessage newElement reportId)
  | DeltaType.addRows namedDataSet => handleAddRowsMessage addRows element namedDataSet

/-- The `setState` call of `applyDelta`, reached once the guard has let the
delta through. -/
def updateElements (addRows : AddRows) (app : App) (delta : Delta) : Except String App :=
  let reportId := app.state.reportId
  match ImmutableList.update app.state.elements delta.id (deltaUpdater addRows delta reportId) with
  | Except.ok elements => Except.ok { app with state := { app.state with elements := elements } }
  | Except.error err => Except.error err

/-- The method `applyDelta`. The guard reads the run state first and asks the
connection manager only when the report is not running; asking an absent
manager throws. -/
def applyDelta (addRows : AddRows) (app : App) (delta : Delta) : Except String App :=
  if app.state.reportRunState ≠ ReportRunState.RUNNING then
    match app.connectionManager with
    | none => Except.error "TypeError: Cannot read property 'isStaticConnection' of null"
    | some cm =>
      if cm.isStaticConnection = false then
        Except.ok app
      else
        updateElements addRows app delta
  else
    updateElements addRows app delta

/-- The predicate of the filter in `clearOldElements`:
`elt && elt.get('reportId') === reportId`. -/
def isCurrent (reportId : String) (elt : Option Element) : Bool :=
  match elt with
  | some e => decide (e.reportId = some reportId)
  | none => false

/-- The method `clearOldElements` of `App`. -/
def clearOldElements (app : App) : App :=
  { app with state :=
      { app.state with elements := List.filter (isCurrent app.state.reportId) app.state.elements } }

/-- The method `handleReportFinished`. -/
def handleReportFinished (app : App) : App :=
  if app.state.reportRunState ≠ ReportRunState.COMPILATION_ERROR then
    clearOldElements app
  else
    app

/-! ## The document operations of `WebClient.js` -/

namespace WebClient

/-- The React state of `WebClient`, as set up by its constructor. -/
structure State where
  reportId : String
  reportName : Option String
  elements : Document
  deriving DecidableEq, Repr

/-- The callback that `clearOldElements` maps over the list: it reads
`elt.get('reportId')`, which throws on a slot holding `undefined`. -/
def clearElement (reportId : String) (elt : Option Element) : Except String (Option Element) :=
  match elt with
  | none => Except.error "TypeError: Cannot read property 'get' of undefined"
  | some e =>
    if e.reportId = some reportId then
      Except.ok (some e)
    else
      Except.ok (some { reportId := some reportId, body := ElementBody.empty true })

/-- Immutable.js `List.map` with a callback that may throw: the slots are
visited in order and the first throw aborts the map. -/
def mapElements (f : Option Element → Except String (Option Element)) :
    Document → Except String Document
  | [] => Except.ok []
  | elt :: rest =>
    match f elt with
    | Except.error err => Except.error err
    | Except.ok elt1 =>
      match mapElements f rest with
      | Except.error err => Except.error err
      | Except.ok rest1 => Except.ok (elt1 :: rest1)

/-- The method `clearOldElements` of `WebClient`. -/
def clearOldElements (st : State) : Except String State :=
  match mapElements (clearElement st.reportId) st.elements with
  | Except.ok elements => Except.ok { st with elements := elements }
  | Except.error err => Except.error err

end WebClient

/-! ## The component at start-up -/

/-- The function `makeElementWithInfoText`. -/
def makeElementWithInfoText (text : String) : Element :=
  { reportId := none, body := ElementBody.text TextFormat.INFO text }

/-- The component as the constructor of `App` leaves it. -/
def App.constructor : App :=
  { state :=
      { reportId := "<null>"
        reportName := none
        elements := [some (makeElementWithInfoText "Connecting...")]
        userSettings := { wideMode := false, runOnSave := false }
        showLoginBox := false
        reportRunState := ReportRunState.NOT_RUNNING
        connectionState := ConnectionState.INITIAL
        commandLine := none
        sharingEnabled := none
        dialog := none }
    connectionManager := none
    latestWidgetBackMsg := none
    widgetThrottleTimer := none
    lastBackMsgTime := none
    sent := []
    logged := [] }

/-- The assignment of `componentDidMount`: the connection manager is created
and stored. -/
def componentDidMount (cm : ConnectionManager) (app : App) : App :=
  { app with connectionManager := some cm }

/-! ## Observations used in the statements -/

/-- The envelopes sent between two moments of the component: what `later.sent`
holds beyond the length of `earlier.sent`. -/
def sentSince (earlier later : App) : List BackMsg :=
  List.drop earlier.sent.length later.sent

/-- Recognises an envelope of type `rerunScript`. -/
def isRerunScript : BackMsg → Bool
  | BackMsg.rerunScript _ => true
  | _ => false

/-- A mounted component with a live connection and the given run state, used
to instantiate the statements below. -/
def mountedApp (s : ReportRunState) : App :=
  let app := componentDidMount { isConnected := true, isStaticConnection := false } App.constructor
  { app with state := { app.state with reportRunState := s } }

/-- A connected component in the middle of report `"run-2"` whose document
still holds a chart of report `"run-1"` in front of a text of `"run-2"`. -/
def staleApp : App :=
  let app := mountedApp ReportRunState.RUNNING
  { app with state :=
      { app.state with
        reportId := "run-2"
        elements :=
          [some { reportId := some "run-1", body := ElementBody.other "chart" "old" },
           some { reportId := some "run-2", body := ElementBody.text TextFormat.INFO "new" }] } }

/-- A mounted component on a static (replay) connection with the given run
state. -/
def staticApp (s : ReportRunState) : App :=
  let app := componentDidMount { isConnected := false, isStaticConnection := true } App.constructor
  { app with state := { app.state with reportRunState := s } }

/-- A sample `addRows` used to instantiate the statements: it appends the rows
to the payload of a non-text element and throws on an empty slot or on a text
or empty element. -/
def sampleAddRows : AddRows := fun element namedDataSet =>
  match element with
  | none => Except.error "NotFoundError"
  | some e =>
    match e.body with
    | ElementBody.other type payload =>
      Except.ok { e with body := ElementBody.other type (payload ++ namedDataSet.payload) }
    | _ => Except.error "SchemaMismatchError"

/-- A sample `newElement` delta for slot `3`. -/
def sampleDelta : Delta :=
  { id := 3
    type := DeltaType.newElement { reportId := none, body := ElementBody.other "chart" "data" } }

/-! ## Further control actions -/

/-- The method `clearCache`. -/
def clearCache (app : App) : App :=
  let app1 := closeDialog app
  if isServerConnected app1 = true then
    sendBackMsg app1 BackMsg.clearCache
  else
    logError app1 "Cannot clear cache: disconnected from server"

/-- The method `saveReport`. -/
def saveReport (app : App) : App :=
  if isServerConnected app = true then
    if app.state.sharingEnabled = some true then
      sendBackMsg app BackMsg.cloudUpload
    else
      openDialog app Dialog.warning
  else
    logError app "Cannot save report when disconnected from server"

/-- The method `openRerunScriptDialog`. -/
def openRerunScriptDialog (app : App) : App :=
  if isServerConnected app = true then
    openDialog app Dialog.rerunScript
  else
    logError app "Cannot rerun script when disconnected from server."

/-- The method `openClearCacheDialog`. -/
def openClearCacheDialog (app : App) : App :=
  if isServerConnected app = true then
    openDialog app Dialog.clearCache
  else
    logError app "Cannot clear cache: disconnected from server"

/-! ## The dispatcher and the error path -/

/-- The method `showSingleTextElement`: the document becomes one text element
(built without a `reportId` key) and the `reportId` of the state is reset. -/
def showSingleTextElement (app : App) (body : String) (format : TextFormat) : App :=
  { app with state :=
      { app.state with
        reportId := "<null>"
        elements := [some { reportId := none, body := ElementBody.text format body }] } }

/-- The method `showError`; `error` is the error already turned into a string
and `info` is `none` when the argument is left out. -/
def showError (app : App) (error : String) (info : Option String) : App :=
  let app1 := logError app error
  let errorStr :=
    match info with
    | none => error
    | some i => error ++ ".\n" ++ i
  showSingleTextElement app1 errorStr TextFormat.ERROR

/-- The method `handleConnectionError`. -/
def handleConnectionError (app : App) (errMsg : String) : App :=
  showError app ("Connection error: " ++ errMsg) none

/-- The `userInfo` part of an `Initialize` message. -/
structure UserInfo where
  installationId : String
  email : String
  deriving DecidableEq, Repr

/-- The `Initialize` protobuf; a message-typed field that was not set decodes
to `null` (`none`). -/
structure Initialize where
  sharingEnabled : Bool
  gatherUsageStats : Bool
  streamlitVersion : String
  userInfo : Option UserInfo
  sessionState : Option SessionState
  deriving DecidableEq, Repr

/-- The `NewReport` protobuf. -/
structure NewReport where
  id : String
  name : String
  commandLine : List String
  deriving DecidableEq, Repr

/-- An inbound envelope, by the value of `msgProto.type`. The first eight
constructors are the keys of the handler table of `handleMessage` (`init` is
the key `initialize`, a reserved word here); `other`
carries every other type string the decoder can report (`"undefined"` when
no case is set), for which the test `whichOne in funcs` is false. -/
inductive ForwardMsg where
  | init (initializeMsg : Initialize)
  | sessionStateChanged (msg : SessionState)
  | sessionEvent (evtMsg : SessionEvent)
  | newReport (newReportMsg : NewReport)
  | delta (deltaMsg : Delta)
  | reportFinished
  | uploadReportProgress (progress : Nat)
  | reportUploaded (url : String)
  | other (type : String)
  deriving DecidableEq, Repr

/-- What a handler leaves behind when it throws: the component at the moment
of the throw and the error as `showError` prints it. -/
structure Thrown where
  app : App
  error : String
  deriving DecidableEq, Repr

/-- The method `handleInitialize`. Reading `userInfo.installationId` of an
unset `userInfo` throws before anything is stored; an unset `sessionState`
throws in `handleSessionStateChanged`, after `sharingEnabled` was stored. -/
def handleInitialize (app : App) (initializeMsg : Initialize) : Except Thrown App :=
  match initializeMsg.userInfo with
  | none =>
    Except.error
      { app := app, error := "TypeError: Cannot read property 'installationId' of null" }
  | some _ =>
    let app1 := { app with state :=
      { app.state with sharingEnabled := some initializeMsg.sharingEnabled } }
    match initializeMsg.sessionState with
    | none =>
      Except.error
        { app := app1, error := "TypeError: Cannot read property 'reportIsRunning' of null" }
    | some initialState => Except.ok (handleSessionStateChanged app1 initialState)

/-- The method `handleNewReport`. -/
def handleNewReport (app : App) (newReportProto : NewReport) : App :=
  { app with state :=
      { app.state with
        reportId := newReportProto.id
        commandLine := some (String.intercalate " " newReportProto.commandLine)
        reportName := some newReportProto.name } }

/-- The local function `dispatchProto` of `handleMessage`, applied to the
handler table: the handler of the envelope's type runs, and a type outside
the table throws `Cannot handle type "..."`. -/
def dispatchProto (rerunPromptModalDialog : Bool) (addRows : AddRows) (app : App)
    (msgProto : ForwardMsg) : Except Thrown App :=
  match msgProto with
  | ForwardMsg.init initializeMsg => handleInitialize app initializeMsg
  | ForwardMsg.sessionStateChanged msg => Except.ok (handleSessionStateChanged app msg)
  | ForwardMsg.sessionEvent evtMsg =>
    Except.ok (handleSessionEvent rerunPromptModalDialog app evtMsg)
  | ForwardMsg.newReport newReportMsg => Except.ok (handleNewReport app newReportMsg)
  | ForwardMsg.delta deltaMsg =>
    match applyDelta addRows app deltaMsg with
    | Except.ok app1 => Except.ok app1
    | Except.error err => Except.error { app := app, error := err }
  | ForwardMsg.reportFinished => Except.ok (handleReportFinished app)
  | ForwardMsg.uploadReportProgress progress =>
    Except.ok (openDialog app (Dialog.uploadProgress progress))
  | ForwardMsg.reportUploaded url => Except.ok (openDialog app (Dialog.uploaded url))
  | ForwardMsg.other type =>
    Except.error { app := app, error := "Error: Cannot handle type \"" ++ type ++ "\"." }

/-- The method `handleMessage`: the dispatch inside `try`, and `showError` in
the `catch`. -/
def handleMessage (rerunPromptModalDialog : Bool) (addRows : AddRows) (app : App)
    (msgProto : ForwardMsg) : App :=
  match dispatchProto rerunPromptModalDialog addRows app msgProto with
  | Except.ok app1 => app1
  | Except.error thrown => showError thrown.app thrown.error none

/-! ## The widget throttle -/

/-- The constant `THROTTLE_MS`. -/
def THROTTLE_MS : Int := 400

/-- The method `sendLatestWidgetBackMsg`, run at clock reading `now`. -/
def sendLatestWidgetBackMsg (app : App) (now : Int) : App :=
  let app1 :=
    match app.latestWidgetBackMsg with
    | some msg => { sendBackMsg app msg with lastBackMsgTime := some now }
    | none => app
  { app1 with latestWidgetBackMsg := none, widgetThrottleTimer := none }

/-- The method `sendThrottledWidgetBackMsg`, called at clock reading `now`
(one call is one instant: both reads of `Date.now()` return `now`). The field
`widgetThrottleTimer` holds the armed timer, represented by the delay asked of
`setTimeout`. While `lastBackMsgTime` is still `undefined` the difference is
`NaN`, the comparison is false and the timer is asked for a `NaN` delay, which
`setTimeout` takes as `0`. -/
def sendThrottledWidgetBackMsg (app : App) (msg : Option BackMsg) (now : Int) : App :=
  let app1 := { app with latestWidgetBackMsg := msg }
  match app1.widgetThrottleTimer with
  | some _ => app1
  | none =>
    match app1.lastBackMsgTime with
    | some last =>
      let delta := now - last
      if delta ≥ THROTTLE_MS then
        sendLatestWidgetBackMsg app1 now
      else
        { app1 with widgetThrottleTimer := some (THROTTLE_MS - delta) }
    | none => { app1 with widgetThrottleTimer := some 0 }

/-! ## The component as a transition system -/

/-- Everything that can happen to the component after its construction:
mounting, the callbacks of the connection manager, the user actions, and the
two entry points of the widget throttle. -/
inductive Action where
  | componentDidMount (cm : ConnectionManager)
  | connectionStateChanged (cm : ConnectionManager) (newState : ConnectionState)
  | message (msgProto : ForwardMsg)
  | connectionError (errMsg : String)
  | rerunScript (alwaysRunOnSave : Bool)
  | stopReport
  | clearCache
  | saveReport
  | saveSettings (newSettings : UserSettings)
  | openRerunScriptDialog
  | openClearCacheDialog
  | closeDialog
  | setCommandLine (commandLine : String)
  | widgetBackMsg (msg : Option BackMsg) (now : Int)
  | throttleTimer (now : Int)
  deriving DecidableEq, Repr

/-- One action applied to the component. `connectionStateChanged` is the
callback given to the connection manager: the state records the new
connection state, and the manager that is in place answers `isConnected()`
and `isStaticConnection()` anew. -/
def step (rerunPromptModalDialog : Bool) (addRows : AddRows) (app : App) : Action → App
  | Action.componentDidMount cm => componentDidMount cm app
  | Action.connectionStateChanged cm newState =>
    { app with
      connectionManager := Option.map (fun _ => cm) app.connectionManager
      state := { app.state with connectionState := newState } }
  | Action.message msgProto => handleMessage rerunPromptModalDialog addRows app msgProto
  | Action.connectionError errMsg => handleConnectionError app errMsg
  | Action.rerunScript alwaysRunOnSave => rerunScript app alwaysRunOnSave
  | Action.stopReport => stopReport app
  | Action.clearCache => clearCache app
  | Action.saveReport => saveReport app
  | Action.saveSettings newSettings => saveSettings app newSettings
  | Action.openRerunScriptDialog => openRerunScriptDialog app
  | Action.openClearCacheDialog => openClearCacheDialog app
  | Action.closeDialog => closeDialog app
  | Action.setCommandLine commandLine =>
    { app with state := { app.state with commandLine := some commandLine } }
  | Action.widgetBackMsg msg now => sendThrottledWidgetBackMsg app msg now
  | Action.throttleTimer now => sendLatestWidgetBackMsg app now

/-- The component after a sequence of actions. -/
def run (rerunPromptModalDialog : Bool) (addRows : AddRows) (app : App)
    (actions : List Action) : App :=
  List.foldl (step rerunPromptModalDialog addRows) app actions

/-- Modelled from the spec: what the document store requires of `addRows` of
`lib/dataFrameProto` (the file is not part of the sources). It succeeds only
on an existing element whose variant supports rows, so never on a text
element, and the element it returns keeps the `reportId` of that element. -/
def AddRowsContract (addRows : AddRows) : Prop :=
  ∀ (element : Option Element) (namedDataSet : NamedDataSet) (result : Element),
    addRows element namedDataSet = Except.ok result →
      ∃ e, element = some e ∧ result.reportId = e.reportId ∧
        ∀ format body, e.body ≠ ElementBody.text format body

/-- An element that carries a `reportId`, or one of the two text elements the
component builds itself without one: the `Connecting...` element of the
constructor and the error element of `showError`. -/
def StampedOrLocal (e : Element) : Prop :=
  e.reportId ≠ none ∨
  e = makeElementWithInfoText "Connecting..." ∨
  ∃ body, e = { reportId := none, body := ElementBody.text TextFormat.ERROR body }

/-! ## The widget throttle as a timed run -/

/-- The two operations of the throttle, each with the clock reading at which
it happens: a request (`sendThrottledWidgetBackMsg`) and the firing of the
timer (`sendLatestWidgetBackMsg`). -/
inductive ThrottleOp where
  | request (msg : Option BackMsg) (now : Int)
  | fire (now : Int)
  deriving DecidableEq, Repr

/-- One throttle operation applied to the component. -/
def throttleStep (app : App) : ThrottleOp → App
  | ThrottleOp.request msg now => sendThrottledWidgetBackMsg app msg now
  | ThrottleOp.fire now => sendLatestWidgetBackMsg app now

/-- The component after a sequence of throttle operations. -/
def throttleRun (app : App) (ops : List ThrottleOp) : App :=
  List.foldl throttleStep app ops

/-- The clock reading of an operation. -/
def ThrottleOp.time : ThrottleOp → Int
  | ThrottleOp.request _ now => now
  | ThrottleOp.fire now => now

/-- A request whose message is not `null`; a firing counts as well. -/
def ThrottleOp.nonNull : ThrottleOp → Bool
  | ThrottleOp.request msg _ => msg.isSome
  | ThrottleOp.fire _ => true

/-- The component together with two observations that the code does not
store: when the armed timer was armed, and the clock readings of the
envelopes the throttle has sent, oldest first. -/
structure TimedThrottle where
  app : App
  armedAt : Option Int
  sendTimes : List Int
  deriving DecidableEq, Repr

/-- One operation on the observed throttle: the component takes the step, a
timer that the step armed is noted with the time of arming, and a step that
made `sent` grow is noted with its time. -/
def TimedThrottle.step (r : TimedThrottle) (op : ThrottleOp) : TimedThrottle :=
  let app1 := throttleStep r.app op
  { app := app1
    armedAt :=
      match app1.widgetThrottleTimer with
      | none => none
      | some _ =>
        match r.app.widgetThrottleTimer with
        | none => some op.time
        | some _ => r.armedAt
    sendTimes :=
      if r.app.sent.length < app1.sent.length then r.sendTimes ++ [op.time] else r.sendTimes }

/-- The observed throttle after a sequence of operations. -/
def TimedThrottle.run (r : TimedThrottle) (ops : List ThrottleOp) : TimedThrottle :=
  List.foldl TimedThrottle.step r ops

/-- The observed throttle at the start: nothing armed, nothing sent. -/
def TimedThrottle.start (app : App) : TimedThrottle :=
  { app := app, armedAt := none, sendTimes := [] }

/-- An operation that the browser can deliver in the given situation: a
request at any time, a firing only of a timer that is armed and not before
the delay it was armed with has passed. -/
def TimedThrottle.timely (r : TimedThrottle) : ThrottleOp → Bool
  | ThrottleOp.request _ _ => true
  | ThrottleOp.fire now =>
    match r.app.widgetThrottleTimer, r.armedAt with
    | some delay, some armed => decide (armed + delay ≤ now)
    | _, _ => false

/-- A sequence of operations each of which is timely when its turn comes. -/
def TimedThrottle.timelyRun (r : TimedThrottle) : List ThrottleOp → Bool
  | [] => true
  | op :: ops => r.timely op && (r.step op).timelyRun ops

/-- A mounted, connected component whose last throttle send was at time
`1000`. -/
def throttledApp : App :=
  { mountedApp ReportRunState.RUNNING with lastBackMsgTime := some 1000 }

/-- The requests for a sequence of messages, each with its clock reading. -/
def requests (reqs : List (BackMsg × Int)) : List ThrottleOp :=
  List.map (fun r => ThrottleOp.request (some r.1) r.2) reqs

/-- The invariant behind the spacing of throttle sends: the recorded send
times are at least `THROTTLE_MS` apart, the latest of them is not after the
stored last-send time, and an armed timer was armed at a known time with a
delay that ends no earlier than `THROTTLE_MS` after the stored last-send
time. -/
def TimedThrottle.Spaced (r : TimedThrottle) : Prop :=
  List.Chain' (fun a b => a + THROTTLE_MS ≤ b) r.sendTimes ∧
  (∀ s ∈ r.sendTimes.getLast?, ∃ last, r.app.lastBackMsgTime = some last ∧ s ≤ last) ∧
  (∀ delay, r.app.widgetThrottleTimer = some delay →
    ∃ armed, r.armedAt = some armed ∧
      ∀ last, r.app.lastBackMsgTime = some last → last + THROTTLE_MS ≤ armed + delay)

/-- A sample run of the throttle: a first request and its timer, two requests
inside the next window and their timer, and a request after the window. -/
def sampleThrottleOps : List ThrottleOp :=
  [ThrottleOp.request (some (BackMsg.widget "a")) 10, ThrottleOp.fire 10,
   ThrottleOp.request (some (BackMsg.widget "b")) 20,
   ThrottleOp.request (some (BackMsg.widget "c")) 30, ThrottleOp.fire 410,
   ThrottleOp.request (some (BackMsg.widget "d")) 900]

/-- A sample session: the component mounts, a report starts, the server says
it is running, an element arrives for slot `1`, and rows are added to it. -/
def sampleActions : List Action :=
  [Action.componentDidMount { isConnected := true, isStaticConnection := false },
   Action.message (ForwardMsg.newReport
     { id := "run-1", name := "report", commandLine := ["python", "report.py"] }),
   Action.message (ForwardMsg.sessionStateChanged
     { reportIsRunning := true, runOnSave := false }),
   Action.message (ForwardMsg.delta
     { id := 1
       type := DeltaType.newElement
         { reportId := none, body := ElementBody.other "chart" "data" } }),
   Action.message (ForwardMsg.delta
     { id := 1, type := DeltaType.addRows { payload := "+rows" } })]

/-! ## Run-state machine: theorems -/

section RunState

open ReportRunState

/-- C1: for every prior run state `s` and every `sessionStateChanged` message
with flag `r`, `handleSessionStateChanged` yields `RUNNING` if `r` is true and
`s` is not `STOP_REQUESTED`, `NOT_RUNNING` if `r` is false and `s` is neither
`RERUN_REQUESTED` nor `COMPILATION_ERROR`, and `s` itself in every other case. -/
theorem handleSessionStateChanged_reportRunState (app : App) (msg : SessionState) :
    (msg.reportIsRunning = true ∧ app.state.reportRunState ≠ STOP_REQUESTED →
      (handleSessionStateChanged app msg).state.reportRunState = RUNNING) ∧
    (msg.reportIsRunning = false ∧ app.state.reportRunState ≠ RERUN_REQUESTED ∧
        app.state.reportRunState ≠ COMPILATION_ERROR →
      (handleSessionStateChanged app msg).state.reportRunState = NOT_RUNNING) ∧
    (¬ (msg.reportIsRunning = true ∧ app.state.reportRunState ≠ STOP_REQUESTED) ∧
      ¬ (msg.reportIsRunning = false ∧ app.state.reportRunState ≠ RERUN_REQUESTED ∧
        app.state.reportRunState ≠ COMPILATION_ERROR) →
      (handleSessionStateChanged app msg).state.reportRunState = app.state.reportRunState) := by
  refine ⟨?_, ?_, ?_⟩
  · intro h
    simp [handleSessionStateChanged, nextReportRunState, h.1, h.2]
  · rintro ⟨h1, h2, h3⟩
    simp [handleSessionStateChanged, nextReportRunState, h1, h2, h3]
  · rintro ⟨h1, h2⟩
    simp only [handleSessionStateChanged, nextReportRunState]
    rw [if_neg h1, if_neg h2]

/-- C1 at concrete inputs: a running report seen from `NOT_RUNNING`, a stopped
report seen from `RUNNING`, and a running report seen from `STOP_REQUESTED`. -/
theorem handleSessionStateChanged_reportRunState_witness :
    (handleSessionStateChanged (mountedApp NOT_RUNNING)
        { reportIsRunning := true, runOnSave := false }).state.reportRunState = RUNNING ∧
    (handleSessionStateChanged (mountedApp RUNNING)
        { reportIsRunning := false, runOnSave := false }).state.reportRunState = NOT_RUNNING ∧
    (handleSessionStateChanged (mountedApp STOP_REQUESTED)
        { reportIsRunning := true, runOnSave := false }).state.reportRunState = STOP_REQUESTED :=
  ⟨(handleSessionStateChanged_reportRunState (mountedApp NOT_RUNNING)
      { reportIsRunning := true, runOnSave := false }).1 ⟨rfl, by decide⟩,
   (handleSessionStateChanged_reportRunState (mountedApp RUNNING)
      { reportIsRunning := false, runOnSave := false }).2.1 ⟨rfl, by decide, by decide⟩,
   (handleSessionStateChanged_reportRunState (mountedApp STOP_REQUESTED)
      { reportIsRunning := true, runOnSave := false }).2.2 ⟨by decide, by decide⟩⟩

/-- What `isServerConnected` answering `true` says about the fields. -/
theorem isServerConnected_iff (app : App) :
    isServerConnected app = true ↔
      ∃ cm, app.connectionManager = some cm ∧ cm.isConnected = true := by
  unfold isServerConnected
  cases h : app.connectionManager with
  | none => simp
  | some cm => simp

/-- With a connection manager in place `sendBackMsg` appends the envelope to
the sent ones and touches nothing else. -/
theorem sendBackMsg_of_manager (app : App) (msg : BackMsg) (cm : ConnectionManager)
    (h : app.connectionManager = some cm) :
    sendBackMsg app msg = { app with sent := app.sent ++ [msg] } := by
  simp [sendBackMsg, h]

/-- From `RUNNING` or `RERUN_REQUESTED`, connected or not, `rerunScript` sends
nothing and keeps the run state. -/
theorem rerunScript_of_pending (app : App) (alwaysRunOnSave : Bool)
    (h : app.state.reportRunState = RUNNING ∨ app.state.reportRunState = RERUN_REQUESTED) :
    (rerunScript app alwaysRunOnSave).sent = app.sent ∧
    (rerunScript app alwaysRunOnSave).state.reportRunState = app.state.reportRunState := by
  simp only [rerunScript]
  by_cases hc : isServerConnected (closeDialog app) = false
  · rw [if_pos hc]
    simp [logError, closeDialog]
  · have h1 : (closeDialog app).state.reportRunState = RUNNING ∨
        (closeDialog app).state.reportRunState = RERUN_REQUESTED := h
    rw [if_neg hc, if_pos h1]
    simp [closeDialog]

/-- C2: while connected, `rerunScript` from a state outside
`{RUNNING, RERUN_REQUESTED}` sets the run state to `RERUN_REQUESTED` and sends
exactly one `rerunScript` envelope, carrying the current `commandLine` (it is
the only envelope when `alwaysRunOnSave` is off); from `RUNNING` or
`RERUN_REQUESTED` it sends nothing and keeps the run state. Hence two calls in
a row from a state that admits a rerun send exactly one `rerunScript`
envelope. -/
theorem rerunScript_connected (app : App) (alwaysRunOnSave again : Bool)
    (hconn : isServerConnected app = true) :
    (app.state.reportRunState ≠ RUNNING ∧ app.state.reportRunState ≠ RERUN_REQUESTED →
      (rerunScript app alwaysRunOnSave).state.reportRunState = RERUN_REQUESTED ∧
      app.sent <+: (rerunScript app alwaysRunOnSave).sent ∧
      List.filter isRerunScript (sentSince app (rerunScript app alwaysRunOnSave)) =
        [BackMsg.rerunScript app.state.commandLine] ∧
      (alwaysRunOnSave = false →
        (rerunScript app alwaysRunOnSave).sent =
          app.sent ++ [BackMsg.rerunScript app.state.commandLine]) ∧
      List.filter isRerunScript
          (sentSince app (rerunScript (rerunScript app alwaysRunOnSave) again)) =
        [BackMsg.rerunScript app.state.commandLine]) ∧
    (app.state.reportRunState = RUNNING ∨ app.state.reportRunState = RERUN_REQUESTED →
      (rerunScript app alwaysRunOnSave).sent = app.sent ∧
      (rerunScript app alwaysRunOnSave).state.reportRunState = app.state.reportRunState) := by
  obtain ⟨cm, hcm, hc⟩ := (isServerConnected_iff app).1 hconn
  constructor
  · rintro ⟨h1, h2⟩
    have key : ∃ pre, (∀ m ∈ pre, isRerunScript m = false) ∧
        (alwaysRunOnSave = false → pre = []) ∧
        rerunScript app alwaysRunOnSave =
          { app with
            state := (rerunScript app alwaysRunOnSave).state
            sent := app.sent ++ pre ++ [BackMsg.rerunScript app.state.commandLine] } ∧
        (rerunScript app alwaysRunOnSave).state.reportRunState = RERUN_REQUESTED := by
      cases alwaysRunOnSave with
      | false =>
        refine ⟨[], by simp, by simp, ?_, ?_⟩ <;>
          simp [rerunScript, closeDialog, isServerConnected, sendBackMsg, hcm, hc, h1, h2]
      | true =>
        by_cases hr : app.state.userSettings.runOnSave = true
        · refine ⟨[], by simp, by simp, ?_, ?_⟩ <;>
            simp [rerunScript, closeDialog, isServerConnected, sendBackMsg, saveSettings,
              hcm, hc, h1, h2, hr]
        · refine ⟨[BackMsg.setRunOnSave true], by simp [isRerunScript], by simp, ?_, ?_⟩ <;>
            simp [rerunScript, closeDialog, isServerConnected, sendBackMsg, saveSettings,
              hcm, hc, h1, h2, hr]
    obtain ⟨pre, hpre, hnil, heq, hst⟩ := key
    have hsent : (rerunScript app alwaysRunOnSave).sent =
        app.sent ++ pre ++ [BackMsg.rerunScript app.state.commandLine] := by
      rw [heq]
    have hfilter : List.filter isRerunScript pre = [] := by
      rw [List.filter_eq_nil_iff]
      intro m hm
      simp [hpre m hm]
    have hsecond : (rerunScript (rerunScript app alwaysRunOnSave) again).sent =
        (rerunScript app alwaysRunOnSave).sent :=
      (rerunScript_of_pending (rerunScript app alwaysRunOnSave) again (Or.inr hst)).1
    have hone : List.filter isRerunScript (sentSince app (rerunScript app alwaysRunOnSave)) =
        [BackMsg.rerunScript app.state.commandLine] := by
      simp [sentSince, hsent, List.append_assoc, List.filter_append, hfilter, isRerunScript]
    refine ⟨hst, ?_, hone, ?_, ?_⟩
    · rw [hsent, List.append_assoc]
      exact List.prefix_append _ _
    · intro ha
      rw [hsent, hnil ha, List.append_nil]
    · have : sentSince app (rerunScript (rerunScript app alwaysRunOnSave) again) =
          sentSince app (rerunScript app alwaysRunOnSave) := by
        simp only [sentSince, hsecond]
      rw [this, hone]
  · intro h
    exact rerunScript_of_pending app alwaysRunOnSave h

/-- C2 at a concrete input: a connected component in `NOT_RUNNING` asked to
rerun twice. -/
theorem rerunScript_connected_witness :
    ((rerunScript (mountedApp NOT_RUNNING) false).state.reportRunState = RERUN_REQUESTED ∧
      (mountedApp NOT_RUNNING).sent <+: (rerunScript (mountedApp NOT_RUNNING) false).sent ∧
      List.filter isRerunScript
          (sentSince (mountedApp NOT_RUNNING) (rerunScript (mountedApp NOT_RUNNING) false)) =
        [BackMsg.rerunScript (mountedApp NOT_RUNNING).state.commandLine] ∧
      (false = false →
        (rerunScript (mountedApp NOT_RUNNING) false).sent =
          (mountedApp NOT_RUNNING).sent ++
            [BackMsg.rerunScript (mountedApp NOT_RUNNING).state.commandLine]) ∧
      List.filter isRerunScript
          (sentSince (mountedApp NOT_RUNNING)
            (rerunScript (rerunScript (mountedApp NOT_RUNNING) false) false)) =
        [BackMsg.rerunScript (mountedApp NOT_RUNNING).state.commandLine]) ∧
    ((rerunScript (mountedApp RUNNING) true).sent = (mountedApp RUNNING).sent ∧
      (rerunScript (mountedApp RUNNING) true).state.reportRunState =
        (mountedApp RUNNING).state.reportRunState) :=
  ⟨(rerunScript_connected (mountedApp NOT_RUNNING) false false rfl).1 ⟨by decide, by decide⟩,
   (rerunScript_connected (mountedApp RUNNING) true false rfl).2 (Or.inl rfl)⟩

/-- C3: while connected, `stopReport` from a state outside
`{NOT_RUNNING, STOP_REQUESTED}` sends exactly one envelope, `stopReport`, and
sets the run state to `STOP_REQUESTED`; from `NOT_RUNNING` or `STOP_REQUESTED`
it sends nothing and keeps the run state. In particular, from `NOT_RUNNING` a
`sessionStateChanged(running=false)` keeps `NOT_RUNNING` and a following
`stopReport` sends nothing. -/
theorem stopReport_connected (app : App) (runOnSave : Bool)
    (hconn : isServerConnected app = true) :
    (app.state.reportRunState ≠ NOT_RUNNING ∧ app.state.reportRunState ≠ STOP_REQUESTED →
      (stopReport app).sent = app.sent ++ [BackMsg.stopReport] ∧
      (stopReport app).state.reportRunState = STOP_REQUESTED) ∧
    (app.state.reportRunState = NOT_RUNNING ∨ app.state.reportRunState = STOP_REQUESTED →
      (stopReport app).sent = app.sent ∧
      (stopReport app).state.reportRunState = app.state.reportRunState) ∧
    (app.state.reportRunState = NOT_RUNNING →
      (handleSessionStateChanged app
          { reportIsRunning := false, runOnSave := runOnSave }).state.reportRunState
        = NOT_RUNNING ∧
      (stopReport (handleSessionStateChanged app
          { reportIsRunning := false, runOnSave := runOnSave })).sent = app.sent ∧
      (stopReport (handleSessionStateChanged app
          { reportIsRunning := false, runOnSave := runOnSave })).state.reportRunState
        = NOT_RUNNING) := by
  obtain ⟨cm, hcm, hc⟩ := (isServerConnected_iff app).1 hconn
  refine ⟨?_, ?_, ?_⟩
  · rintro ⟨h1, h2⟩
    simp [stopReport, isServerConnected, sendBackMsg, hcm, hc, h1, h2]
  · intro h
    rcases h with h | h <;> simp [stopReport, isServerConnected, hcm, hc, h]
  · intro h
    simp [stopReport, handleSessionStateChanged, nextReportRunState, isServerConnected,
      hcm, hc, h]

/-- C3 at concrete inputs: a connected component stopped while `RUNNING`, and
the scenario that starts in `NOT_RUNNING`. -/
theorem stopReport_connected_witness :
    ((stopReport (mountedApp RUNNING)).sent = (mountedApp RUNNING).sent ++ [BackMsg.stopReport] ∧
      (stopReport (mountedApp RUNNING)).state.reportRunState = STOP_REQUESTED) ∧
    ((stopReport (mountedApp STOP_REQUESTED)).sent = (mountedApp STOP_REQUESTED).sent ∧
      (stopReport (mountedApp STOP_REQUESTED)).state.reportRunState =
        (mountedApp STOP_REQUESTED).state.reportRunState) ∧
    ((handleSessionStateChanged (mountedApp NOT_RUNNING)
          { reportIsRunning := false, runOnSave := true }).state.reportRunState
        = NOT_RUNNING ∧
      (stopReport (handleSessionStateChanged (mountedApp NOT_RUNNING)
          { reportIsRunning := false, runOnSave := true })).sent = (mountedApp NOT_RUNNING).sent ∧
      (stopReport (handleSessionStateChanged (mountedApp NOT_RUNNING)
          { reportIsRunning := false, runOnSave := true })).state.reportRunState
        = NOT_RUNNING) :=
  ⟨(stopReport_connected (mountedApp RUNNING) false rfl).1 ⟨by decide, by decide⟩,
   (stopReport_connected (mountedApp STOP_REQUESTED) false rfl).2.1 (Or.inr rfl),
   (stopReport_connected (mountedApp NOT_RUNNING) true rfl).2.2 rfl⟩

/-- A `sessionStateChanged(running=false)` message leaves `COMPILATION_ERROR`
in place. -/
theorem handleSessionStateChanged_latch (app : App) (msg : SessionState)
    (hmsg : msg.reportIsRunning = false)
    (h : app.state.reportRunState = COMPILATION_ERROR) :
    (handleSessionStateChanged app msg).state.reportRunState = COMPILATION_ERROR := by
  simp [handleSessionStateChanged, nextReportRunState, hmsg, h]

/-- Any run of `sessionStateChanged(running=false)` messages leaves
`COMPILATION_ERROR` in place. -/
theorem foldl_handleSessionStateChanged_latch (msgs : List SessionState) :
    ∀ app : App, (∀ m ∈ msgs, m.reportIsRunning = false) →
      app.state.reportRunState = COMPILATION_ERROR →
      (List.foldl handleSessionStateChanged app msgs).state.reportRunState
        = COMPILATION_ERROR := by
  induction msgs with
  | nil => intro app _ h; exact h
  | cons m rest ih =>
    intro app hall h
    rw [List.foldl_cons]
    apply ih
    · intro m1 hm1
      exact hall m1 (List.mem_cons_of_mem _ hm1)
    · exact handleSessionStateChanged_latch app m (hall m (List.mem_cons_self _ _)) h

/-- C4: from every run state a `sessionEvent` of type
`scriptCompilationException` sets the run state to `COMPILATION_ERROR`, and
after it every finite sequence of `sessionStateChanged(running=false)`
messages leaves the run state at `COMPILATION_ERROR`. -/
theorem compilationError_latch (rerunPromptModalDialog : Bool) (app : App)
    (exception : String) (msgs : List SessionState)
    (hmsgs : ∀ m ∈ msgs, m.reportIsRunning = false) :
    (handleSessionEvent rerunPromptModalDialog app
        (SessionEvent.scriptCompilationException exception)).state.reportRunState
      = COMPILATION_ERROR ∧
    (List.foldl handleSessionStateChanged
        (handleSessionEvent rerunPromptModalDialog app
          (SessionEvent.scriptCompilationException exception)) msgs).state.reportRunState
      = COMPILATION_ERROR := by
  have h0 : (handleSessionEvent rerunPromptModalDialog app
      (SessionEvent.scriptCompilationException exception)).state.reportRunState
      = COMPILATION_ERROR := by
    simp [handleSessionEvent, openDialog]
  exact ⟨h0, foldl_handleSessionStateChanged_latch msgs _ hmsgs h0⟩

/-- C4 at a concrete input: a compile error while `RUNNING`, followed by two
`sessionStateChanged(running=false)` messages. -/
theorem compilationError_latch_witness :
    (handleSessionEvent true (mountedApp RUNNING)
        (SessionEvent.scriptCompilationException "SyntaxError")).state.reportRunState
      = COMPILATION_ERROR ∧
    (List.foldl handleSessionStateChanged
        (handleSessionEvent true (mountedApp RUNNING)
          (SessionEvent.scriptCompilationException "SyntaxError"))
        [{ reportIsRunning := false, runOnSave := false },
         { reportIsRunning := false, runOnSave := true }]).state.reportRunState
      = COMPILATION_ERROR :=
  compilationError_latch true (mountedApp RUNNING) "SyntaxError"
    [{ reportIsRunning := false, runOnSave := false },
     { reportIsRunning := false, runOnSave := true }]
    (by intro m hm; simp at hm; rcases hm with h | h <;> simp [h])

end RunState

/-! ## Document store: theorems -/

section DocumentStore

open ReportRunState

/-- After `ImmutableList.set` the slot holds the value, whether the index was
inside the list or past its end. -/
theorem ImmutableList.getElem?_set_self (elements : Document) (index : Nat) (value : Element) :
    (ImmutableList.set elements index value)[index]? = some (some value) := by
  unfold ImmutableList.set
  split
  · next h => simp [h]
  · next h =>
    have hlen : (elements ++ List.replicate (index - elements.length) none).length = index := by
      simp only [List.length_append, List.length_replicate]
      omega
    rw [List.getElem?_append_right (by omega), hlen]
    simp

/-- The call `ImmutableList.set` leaves every other slot of the old list as it
was. -/
theorem ImmutableList.getElem?_set_of_ne (elements : Document) (index j : Nat) (value : Element)
    (hne : j ≠ index) (hj : j < elements.length) :
    (ImmutableList.set elements index value)[j]? = elements[j]? := by
  unfold ImmutableList.set
  split
  · next h => exact List.getElem?_set_ne (Ne.symm hne)
  · next h =>
    rw [List.append_assoc, List.getElem?_append_left hj]

/-- For a `newElement` delta the `setState` call of `applyDelta` succeeds and
stores the stamped element in the slot of the delta's id. -/
theorem updateElements_newElement (addRows : AddRows) (app : App) (id : Nat) (element : Element) :
    updateElements addRows app { id := id, type := DeltaType.newElement element } =
      Except.ok { app with state := { app.state with
        elements := ImmutableList.set app.state.elements id
          (handleNewElementMessage element app.state.reportId) } } := by
  simp [updateElements, ImmutableList.update, deltaUpdater]

/-- For an `addRows` delta the `setState` call of `applyDelta` stores what
`addRows` returns for the current slot, and throws what `addRows` throws. -/
theorem updateElements_addRows (addRows : AddRows) (app : App) (id : Nat)
    (namedDataSet : NamedDataSet) :
    updateElements addRows app { id := id, type := DeltaType.addRows namedDataSet } =
      match addRows (ImmutableList.get app.state.elements id) namedDataSet with
      | Except.ok value => Except.ok { app with state := { app.state with
          elements := ImmutableList.set app.state.elements id value } }
      | Except.error err => Except.error err := by
  simp only [updateElements, ImmutableList.update, deltaUpdater, handleAddRowsMessage]
  cases addRows (ImmutableList.get app.state.elements id) namedDataSet <;> rfl

/-- The guard of `applyDelta` lets a delta through to the `setState` call
when the run state is `RUNNING` or the connection is static. -/
theorem applyDelta_of_pass (addRows : AddRows) (app : App) (delta : Delta)
    (hpass : app.state.reportRunState = RUNNING ∨
      ∃ cm, app.connectionManager = some cm ∧ cm.isStaticConnection = true) :
    applyDelta addRows app delta = updateElements addRows app delta := by
  rcases hpass with h | ⟨cm, hcm, hs⟩
  · simp [applyDelta, h]
  · by_cases hr : app.state.reportRunState = RUNNING
    · simp [applyDelta, hr]
    · simp [applyDelta, hr, hcm, hs]

/-- What `ImmutableList.get` reads, in terms of the list. -/
theorem ImmutableList.get_eq_join (elements : Document) (index : Nat) :
    ImmutableList.get elements index = Option.join elements[index]? := by
  unfold ImmutableList.get
  cases elements[index]? <;> rfl

/-- C5: with a connection manager in place, `applyDelta` applies a
`newElement`/`addRows` delta to the document if and only if the run state is
`RUNNING` or the connection is static. When the guard lets the delta through
(in every run state on a static connection), the call is the `elements.update`
of the delta: a `newElement` delta leaves its element, stamped with the
current `reportId`, in the slot of its id, an `addRows` delta leaves there
what `addRows` returns for the slot and throws what `addRows` throws, and the
other slots are untouched. When the run state is not `RUNNING` and the
connection is not static, the whole component, document included, is left
unchanged. -/
theorem applyDelta_guard (addRows : AddRows) (app : App) (cm : ConnectionManager)
    (delta : Delta) (hcm : app.connectionManager = some cm) :
    (app.state.reportRunState = RUNNING ∨ cm.isStaticConnection = true →
      applyDelta addRows app delta = updateElements addRows app delta) ∧
    (cm.isStaticConnection = true → ∀ s : ReportRunState,
      applyDelta addRows { app with state := { app.state with reportRunState := s } } delta =
        updateElements addRows
          { app with state := { app.state with reportRunState := s } } delta) ∧
    (app.state.reportRunState ≠ RUNNING ∧ cm.isStaticConnection = false →
      applyDelta addRows app delta = Except.ok app) ∧
    (∀ s : ReportRunState, s = RUNNING ∨ cm.isStaticConnection = true →
      (∀ element, delta.type = DeltaType.newElement element →
        ∃ elements : Document,
          applyDelta addRows
              { app with state := { app.state with reportRunState := s } } delta =
            Except.ok { app with state :=
              { app.state with reportRunState := s, elements := elements } } ∧
          elements[delta.id]? =
            some (some { element with reportId := some app.state.reportId }) ∧
          ∀ j, j ≠ delta.id → j < app.state.elements.length →
            elements[j]? = app.state.elements[j]?) ∧
      (∀ namedDataSet, delta.type = DeltaType.addRows namedDataSet →
        (∀ value, addRows (Option.join app.state.elements[delta.id]?) namedDataSet
            = Except.ok value →
          ∃ elements : Document,
            applyDelta addRows
                { app with state := { app.state with reportRunState := s } } delta =
              Except.ok { app with state :=
                { app.state with reportRunState := s, elements := elements } } ∧
            elements[delta.id]? = some (some value) ∧
            ∀ j, j ≠ delta.id → j < app.state.elements.length →
              elements[j]? = app.state.elements[j]?) ∧
        (∀ err, addRows (Option.join app.state.elements[delta.id]?) namedDataSet
            = Except.error err →
          applyDelta addRows
              { app with state := { app.state with reportRunState := s } } delta =
            Except.error err))) ∧
    (∀ s : ReportRunState, s ≠ RUNNING ∧ cm.isStaticConnection = false →
      applyDelta addRows { app with state := { app.state with reportRunState := s } } delta =
        Except.ok { app with state := { app.state with reportRunState := s } }) := by
  refine ⟨?_, ?_, ?_, ?_, ?_⟩
  · intro h
    apply applyDelta_of_pass
    rcases h with h | h
    · exact Or.inl h
    · exact Or.inr ⟨cm, hcm, h⟩
  · intro h s
    exact applyDelta_of_pass addRows _ delta (Or.inr ⟨cm, hcm, h⟩)
  · rintro ⟨h1, h2⟩
    simp [applyDelta, h1, hcm, h2]
  · intro s hs
    have hpass : ({ app with state := { app.state with reportRunState := s } } : App).state.reportRunState
        = RUNNING ∨ ∃ cm1,
          ({ app with state := { app.state with reportRunState := s } } : App).connectionManager
            = some cm1 ∧ cm1.isStaticConnection = true := by
      rcases hs with h | h
      · exact Or.inl h
      · exact Or.inr ⟨cm, hcm, h⟩
    obtain ⟨id, type⟩ := delta
    rw [applyDelta_of_pass addRows _ _ hpass]
    refine ⟨?_, ?_⟩
    · intro element htype
      simp only at htype
      subst htype
      refine ⟨ImmutableList.set app.state.elements id
        { element with reportId := some app.state.reportId }, ?_, ?_, ?_⟩
      · simp [updateElements, ImmutableList.update, deltaUpdater, handleNewElementMessage]
      · exact ImmutableList.getElem?_set_self _ _ _
      · intro j hne hj
        exact ImmutableList.getElem?_set_of_ne _ _ _ _ hne hj
    · intro namedDataSet htype
      simp only at htype
      subst htype
      refine ⟨?_, ?_⟩
      · intro value hvalue
        rw [← ImmutableList.get_eq_join] at hvalue
        refine ⟨ImmutableList.set app.state.elements id value, ?_, ?_, ?_⟩
        · simp [updateElements, ImmutableList.update, deltaUpdater, handleAddRowsMessage,
            hvalue]
        · exact ImmutableList.getElem?_set_self _ _ _
        · intro j hne hj
          exact ImmutableList.getElem?_set_of_ne _ _ _ _ hne hj
      · intro err herr
        rw [← ImmutableList.get_eq_join] at herr
        simp [updateElements, ImmutableList.update, deltaUpdater, handleAddRowsMessage, herr]
  · rintro s ⟨h1, h2⟩
    simp [applyDelta, h1, hcm, h2]

/-- C5 at concrete inputs: a `newElement` delta for slot `3` on a static
connection in `NOT_RUNNING` is stored, stamped, in slot `3` of a document that
had one slot; the same delta on a live connection in `NOT_RUNNING` changes
nothing; and on a running live connection rows are added to the stale chart
in slot `0`. -/
theorem applyDelta_guard_witness :
    (applyDelta sampleAddRows (staticApp NOT_RUNNING) sampleDelta =
      updateElements sampleAddRows (staticApp NOT_RUNNING) sampleDelta) ∧
    (∀ s : ReportRunState,
      applyDelta sampleAddRows
          { staticApp NOT_RUNNING with
            state := { (staticApp NOT_RUNNING).state with reportRunState := s } } sampleDelta =
        updateElements sampleAddRows
          { staticApp NOT_RUNNING with
            state := { (staticApp NOT_RUNNING).state with reportRunState := s } } sampleDelta) ∧
    (applyDelta sampleAddRows (mountedApp NOT_RUNNING) sampleDelta =
      Except.ok (mountedApp NOT_RUNNING)) ∧
    (∃ elements : Document,
      applyDelta sampleAddRows
          { staticApp NOT_RUNNING with
            state := { (staticApp NOT_RUNNING).state with reportRunState := NOT_RUNNING } }
          sampleDelta =
        Except.ok { staticApp NOT_RUNNING with state :=
          { (staticApp NOT_RUNNING).state with
            reportRunState := NOT_RUNNING, elements := elements } } ∧
      elements[sampleDelta.id]? =
        some (some { reportId := some (staticApp NOT_RUNNING).state.reportId,
                     body := ElementBody.other "chart" "data" }) ∧
      ∀ j, j ≠ sampleDelta.id → j < (staticApp NOT_RUNNING).state.elements.length →
        elements[j]? = (staticApp NOT_RUNNING).state.elements[j]?) ∧
    (∃ elements : Document,
      applyDelta sampleAddRows
          { staleApp with state := { staleApp.state with reportRunState := RUNNING } }
          { id := 0, type := DeltaType.addRows { payload := "+rows" } } =
        Except.ok { staleApp with state :=
          { staleApp.state with reportRunState := RUNNING, elements := elements } } ∧
      elements[0]? =
        some (some { reportId := some "run-1", body := ElementBody.other "chart" "old+rows" }) ∧
      ∀ j, j ≠ 0 → j < staleApp.state.elements.length →
        elements[j]? = staleApp.state.elements[j]?) :=
  ⟨(applyDelta_guard sampleAddRows (staticApp NOT_RUNNING)
      { isConnected := false, isStaticConnection := true } sampleDelta rfl).1 (Or.inr rfl),
   (applyDelta_guard sampleAddRows (staticApp NOT_RUNNING)
      { isConnected := false, isStaticConnection := true } sampleDelta rfl).2.1 rfl,
   (applyDelta_guard sampleAddRows (mountedApp NOT_RUNNING)
      { isConnected := true, isStaticConnection := false } sampleDelta rfl).2.2.1
      ⟨by decide, rfl⟩,
   ((applyDelta_guard sampleAddRows (staticApp NOT_RUNNING)
      { isConnected := false, isStaticConnection := true } sampleDelta rfl).2.2.2.1
      NOT_RUNNING (Or.inr rfl)).1 _ rfl,
   (((applyDelta_guard sampleAddRows staleApp
      { isConnected := true, isStaticConnection := false }
      { id := 0, type := DeltaType.addRows { payload := "+rows" } } rfl).2.2.2.1
      RUNNING (Or.inl rfl)).2 _ rfl).1 _ rfl⟩

/-- What the filter predicate of `clearOldElements` accepts. -/
theorem isCurrent_iff (reportId : String) (slot : Option Element) :
    isCurrent reportId slot = true ↔ ∃ e, slot = some e ∧ e.reportId = some reportId := by
  cases slot with
  | none => simp [isCurrent]
  | some e => simp [isCurrent]

/-- C6: after `handleReportFinished` in a run state other than
`COMPILATION_ERROR`, every slot left in the document holds an element whose
`reportId` is the current `reportId` (which the handler does not change). -/
theorem handleReportFinished_all_current (app : App)
    (h : app.state.reportRunState ≠ COMPILATION_ERROR) :
    (handleReportFinished app).state.reportId = app.state.reportId ∧
    ∀ slot ∈ (handleReportFinished app).state.elements,
      ∃ e, slot = some e ∧ e.reportId = some (handleReportFinished app).state.reportId := by
  have hfin : handleReportFinished app = clearOldElements app := by
    simp [handleReportFinished, h]
  rw [hfin]
  refine ⟨rfl, ?_⟩
  intro slot hslot
  simp only [clearOldElements, List.mem_filter] at hslot
  exact (isCurrent_iff _ _).1 hslot.2

/-- C6 at a concrete input: the report finishes while the document still holds
an element of the previous report. -/
theorem handleReportFinished_all_current_witness :
    (handleReportFinished staleApp).state.reportId = staleApp.state.reportId ∧
    ∀ slot ∈ (handleReportFinished staleApp).state.elements,
      ∃ e, slot = some e ∧ e.reportId = some (handleReportFinished staleApp).state.reportId :=
  handleReportFinished_all_current staleApp (by decide)

/-- C7: in `COMPILATION_ERROR`, `handleReportFinished` leaves the document (in
fact the whole component) unchanged; and in every run state it leaves the run
state unchanged. -/
theorem handleReportFinished_frame (app : App) :
    (app.state.reportRunState = COMPILATION_ERROR →
      (handleReportFinished app).state.elements = app.state.elements ∧
      handleReportFinished app = app) ∧
    (handleReportFinished app).state.reportRunState = app.state.reportRunState := by
  constructor
  · intro h
    simp [handleReportFinished, h]
  · unfold handleReportFinished
    split <;> rfl

/-- C7 at a concrete input: a finished report after a compile error keeps the
stale chart. -/
theorem handleReportFinished_frame_witness :
    (handleReportFinished
        (handleSessionEvent false staleApp
          (SessionEvent.scriptCompilationException "SyntaxError"))).state.elements
      = staleApp.state.elements :=
  ((handleReportFinished_frame
      (handleSessionEvent false staleApp
        (SessionEvent.scriptCompilationException "SyntaxError"))).1 rfl).1

/-- One pass of `WebClient.clearOldElements` over a document whose elements
are all current returns the document itself. -/
theorem WebClient.mapElements_of_current (reportId : String) :
    ∀ elements : Document,
      (∀ slot ∈ elements, ∃ e, slot = some e ∧ e.reportId = some reportId) →
      WebClient.mapElements (WebClient.clearElement reportId) elements = Except.ok elements := by
  intro elements
  induction elements with
  | nil => intro _; rfl
  | cons slot rest ih =>
    intro h
    obtain ⟨e, he, hid⟩ := h slot (List.mem_cons_self _ _)
    have hrest := ih (fun s hs => h s (List.mem_cons_of_mem _ hs))
    subst he
    simp [WebClient.mapElements, WebClient.clearElement, hid, hrest]

/-- When one pass of `WebClient.clearOldElements` succeeds, every element of
its result is current. -/
theorem WebClient.mapElements_all_current (reportId : String) :
    ∀ elements result : Document,
      WebClient.mapElements (WebClient.clearElement reportId) elements = Except.ok result →
      ∀ slot ∈ result, ∃ e, slot = some e ∧ e.reportId = some reportId := by
  intro elements
  induction elements with
  | nil =>
    intro result h slot hslot
    simp [WebClient.mapElements] at h
    subst h
    simp at hslot
  | cons hd rest ih =>
    intro result h slot hslot
    unfold WebClient.mapElements at h
    cases hf : WebClient.clearElement reportId hd with
    | error err => simp [hf] at h
    | ok hd1 =>
      cases hm : WebClient.mapElements (WebClient.clearElement reportId) rest with
      | error err => simp [hf, hm] at h
      | ok rest1 =>
        simp only [hf, hm, Except.ok.injEq] at h
        subst h
        rcases List.mem_cons.1 hslot with hs | hs
        · subst hs
          cases hd with
          | none => simp [WebClient.clearElement] at hf
          | some e =>
            by_cases hid : e.reportId = some reportId
            · simp only [WebClient.clearElement, hid, if_true, Except.ok.injEq] at hf
              exact ⟨e, hf.symm, hid⟩
            · simp only [WebClient.clearElement, hid, if_false, Except.ok.injEq] at hf
              exact ⟨_, hf.symm, rfl⟩
        · exact ih rest1 hm slot hs

/-- C8: the stale sweep is idempotent. For `App.clearOldElements`, sweeping
twice gives the same component (hence the same document) as sweeping once; for
`WebClient.clearOldElements`, running the sweep on the result of a sweep gives
the result of the first sweep, and a sweep that throws throws the same both
ways. -/
theorem clearOldElements_idempotent (app : App) (st : WebClient.State) :
    clearOldElements (clearOldElements app) = clearOldElements app ∧
    (WebClient.clearOldElements st >>= WebClient.clearOldElements) =
      WebClient.clearOldElements st := by
  constructor
  · simp [clearOldElements, List.filter_filter]
  · unfold WebClient.clearOldElements
    cases hm : WebClient.mapElements (WebClient.clearElement st.reportId) st.elements with
    | error err => rfl
    | ok elements =>
      have hcur := WebClient.mapElements_all_current st.reportId st.elements elements hm
      have hagain := WebClient.mapElements_of_current st.reportId elements hcur
      simp [bind, Except.bind, hagain]

/-- C9, refuted as stated: on a document holding a stale chart in front of a
current text, `App.clearOldElements` returns a document of one slot, the
current text; the stale chart's slot is gone, not replaced by a placeholder. -/
theorem clearOldElements_drops_stale_slot :
    (clearOldElements staleApp).state.elements =
      [some { reportId := some "run-2", body := ElementBody.text TextFormat.INFO "new" }] ∧
    (clearOldElements staleApp).state.elements.length ≠ staleApp.state.elements.length ∧
    (clearOldElements staleApp).state.elements[1]? ≠ staleApp.state.elements[1]? := by
  refine ⟨?_, ?_, ?_⟩ <;> simp [clearOldElements, staleApp, mountedApp, componentDidMount,
    App.constructor, isCurrent]

/-- C9, amended: `App.clearOldElements` keeps exactly the elements whose
`reportId` equals the current one, unchanged and in their original order, and
removes every other slot: the result is a sublist of the old document, a slot
is in it exactly when it was in the old document and holds a current element,
its length is the number of current elements of the old document (so it never
grows), and nothing but the document changes. -/
theorem clearOldElements_keeps_current (app : App) :
    List.Sublist (clearOldElements app).state.elements app.state.elements ∧
    (∀ slot, slot ∈ (clearOldElements app).state.elements ↔
      slot ∈ app.state.elements ∧ ∃ e, slot = some e ∧ e.reportId = some app.state.reportId) ∧
    (clearOldElements app).state.elements.length =
      List.countP (isCurrent app.state.reportId) app.state.elements ∧
    (clearOldElements app).state.elements.length ≤ app.state.elements.length ∧
    clearOldElements app =
      { app with state := { app.state with elements := (clearOldElements app).state.elements } } := by
  refine ⟨?_, ?_, ?_, ?_, ?_⟩
  · exact List.filter_sublist _
  · intro slot
    simp only [clearOldElements, List.mem_filter, isCurrent_iff]
  · simp only [clearOldElements, List.countP_eq_length_filter]
  · exact List.length_filter_le _ _
  · rfl

/-- C10: when `applyDelta` admits a `newElement` delta for id `i` (the run
state is `RUNNING`, or the connection is static), then whatever slot `i` held
before, the call succeeds, slot `i` afterwards holds the delta's element with
its `reportId` set to the current `reportId`, every other slot of the old
document is unchanged, and nothing but the document changes. -/
theorem applyDelta_newElement (addRows : AddRows) (app : App) (i : Nat) (element : Element)
    (hpass : app.state.reportRunState = RUNNING ∨
      ∃ cm, app.connectionManager = some cm ∧ cm.isStaticConnection = true) :
    ∃ elements : Document,
      applyDelta addRows app { id := i, type := DeltaType.newElement element } =
        Except.ok { app with state := { app.state with elements := elements } } ∧
      elements[i]? = some (some { element with reportId := some app.state.reportId }) ∧
      ∀ j, j ≠ i → j < app.state.elements.length → elements[j]? = app.state.elements[j]? := by
  refine ⟨ImmutableList.set app.state.elements i
    (handleNewElementMessage element app.state.reportId), ?_, ?_, ?_⟩
  · rw [← updateElements_newElement addRows app i element]
    rcases hpass with h | ⟨cm, hcm, hs⟩
    · simp [applyDelta, h]
    · by_cases hr : app.state.reportRunState = RUNNING
      · simp [applyDelta, hr]
      · simp [applyDelta, hr, hcm, hs]
  · exact ImmutableList.getElem?_set_self _ _ _
  · intro j hne hj
    exact ImmutableList.getElem?_set_of_ne _ _ _ _ hne hj

/-- C10 at a concrete input: a `newElement` delta for slot `3` arrives while
the document has two slots and the report is running. -/
theorem applyDelta_newElement_witness :
    ∃ elements : Document,
      applyDelta sampleAddRows staleApp
          { id := 3, type := DeltaType.newElement
              { reportId := none, body := ElementBody.other "chart" "data" } } =
        Except.ok { staleApp with state := { staleApp.state with elements := elements } } ∧
      elements[3]? = some (some { reportId := some staleApp.state.reportId,
                                  body := ElementBody.other "chart" "data" }) ∧
      ∀ j, j ≠ 3 → j < staleApp.state.elements.length →
        elements[j]? = staleApp.state.elements[j]? :=
  applyDelta_newElement sampleAddRows staleApp 3
    { reportId := none, body := ElementBody.other "chart" "data" } (Or.inl rfl)

end DocumentStore

/-! ## Dispatcher and connection gating: theorems -/

section Dispatcher

open ReportRunState

/-- C12: for every inbound envelope whose type is outside the handler table,
`handleMessage` runs no handler: the dispatch throws an error naming the type,
the `catch` logs it and replaces the document by exactly one text element of
format `ERROR` whose body is that error (the `reportId` of the state is reset
with it), and everything else, the run state and the connection state
included, is unchanged; a following `sessionStateChanged` message is handled
as it would have been without the unknown envelope. -/
theorem handleMessage_other (rerunPromptModalDialog : Bool) (addRows : AddRows) (app : App)
    (type : String) :
    dispatchProto rerunPromptModalDialog addRows app (ForwardMsg.other type) =
      Except.error
        { app := app, error := "Error: Cannot handle type \"" ++ type ++ "\"." } ∧
    handleMessage rerunPromptModalDialog addRows app (ForwardMsg.other type) =
      { app with
        state := { app.state with
          reportId := "<null>"
          elements := [some { reportId := none,
                              body := ElementBody.text TextFormat.ERROR
                                ("Error: Cannot handle type \"" ++ type ++ "\".") }] }
        logged := app.logged ++ ["Error: Cannot handle type \"" ++ type ++ "\"."] } ∧
    (handleMessage rerunPromptModalDialog addRows app
        (ForwardMsg.other type)).state.reportRunState = app.state.reportRunState ∧
    (handleMessage rerunPromptModalDialog addRows app
        (ForwardMsg.other type)).state.connectionState = app.state.connectionState ∧
    (handleMessage rerunPromptModalDialog addRows app (ForwardMsg.other type)).sent = app.sent ∧
    ∀ msg : SessionState,
      (handleMessage rerunPromptModalDialog addRows
          (handleMessage rerunPromptModalDialog addRows app (ForwardMsg.other type))
          (ForwardMsg.sessionStateChanged msg)).state.reportRunState =
        (handleMessage rerunPromptModalDialog addRows app
          (ForwardMsg.sessionStateChanged msg)).state.reportRunState := by
  refine ⟨rfl, rfl, rfl, rfl, rfl, ?_⟩
  intro msg
  rfl

/-- C13: while `isServerConnected` answers false (the manager reports not
connected, or is absent), `rerunScript`, `stopReport`, `clearCache` and
`saveReport` send nothing and leave the run state unchanged, and
`saveSettings` sends nothing, so no `setRunOnSave` envelope. -/
theorem control_actions_dropped (app : App) (alwaysRunOnSave : Bool)
    (newSettings : UserSettings) (h : isServerConnected app = false) :
    ((rerunScript app alwaysRunOnSave).sent = app.sent ∧
      (rerunScript app alwaysRunOnSave).state.reportRunState = app.state.reportRunState) ∧
    ((stopReport app).sent = app.sent ∧
      (stopReport app).state.reportRunState = app.state.reportRunState) ∧
    ((clearCache app).sent = app.sent ∧
      (clearCache app).state.reportRunState = app.state.reportRunState) ∧
    ((saveReport app).sent = app.sent ∧
      (saveReport app).state.reportRunState = app.state.reportRunState) ∧
    (saveSettings app newSettings).sent = app.sent := by
  have hclose : isServerConnected (closeDialog app) = false := h
  have hset : isServerConnected
      { app with state := { app.state with userSettings := newSettings } } = false := h
  refine ⟨?_, ?_, ?_, ?_, ?_⟩
  · simp only [rerunScript]
    rw [if_pos hclose]
    exact ⟨rfl, rfl⟩
  · simp only [stopReport]
    rw [if_pos h]
    exact ⟨rfl, rfl⟩
  · simp only [clearCache, hclose]
    exact ⟨rfl, rfl⟩
  · simp only [saveReport, h]
    exact ⟨rfl, rfl⟩
  · simp only [saveSettings, hset]
    simp

/-- C13 at concrete inputs: the component before mounting (no manager), asked
to rerun with run-on-save and to save settings that switch run-on-save on. -/
theorem control_actions_dropped_witness :
    ((rerunScript App.constructor true).sent = App.constructor.sent ∧
      (rerunScript App.constructor true).state.reportRunState =
        App.constructor.state.reportRunState) ∧
    ((stopReport App.constructor).sent = App.constructor.sent ∧
      (stopReport App.constructor).state.reportRunState =
        App.constructor.state.reportRunState) ∧
    ((clearCache App.constructor).sent = App.constructor.sent ∧
      (clearCache App.constructor).state.reportRunState =
        App.constructor.state.reportRunState) ∧
    ((saveReport App.constructor).sent = App.constructor.sent ∧
      (saveReport App.constructor).state.reportRunState =
        App.constructor.state.reportRunState) ∧
    (saveSettings App.constructor { wideMode := false, runOnSave := true }).sent =
      App.constructor.sent :=
  control_actions_dropped App.constructor true { wideMode := false, runOnSave := true } rfl

end Dispatcher

/-! ## Widget throttle: theorems -/

section Throttle

/-- A request made while a timer is armed only replaces the held envelope. -/
theorem sendThrottledWidgetBackMsg_of_armed (app : App) (msg : Option BackMsg) (now delay : Int)
    (h : app.widgetThrottleTimer = some delay) :
    sendThrottledWidgetBackMsg app msg now = { app with latestWidgetBackMsg := msg } := by
  simp [sendThrottledWidgetBackMsg, h]

/-- A request made with no timer armed and less than `THROTTLE_MS` after the
last send holds the envelope and arms the timer for the rest of the window. -/
theorem sendThrottledWidgetBackMsg_of_early (app : App) (msg : Option BackMsg) (now last : Int)
    (htimer : app.widgetThrottleTimer = none) (hlast : app.lastBackMsgTime = some last)
    (hearly : now - last < THROTTLE_MS) :
    sendThrottledWidgetBackMsg app msg now =
      { app with latestWidgetBackMsg := msg
                 widgetThrottleTimer := some (THROTTLE_MS - (now - last)) } := by
  have hnot : ¬ (now - last ≥ THROTTLE_MS) := not_le.2 hearly
  simp [sendThrottledWidgetBackMsg, htimer, hlast, hnot]

/-- A request for a message made with no timer armed and at least
`THROTTLE_MS` after the last send goes through `sendBackMsg` at once. -/
theorem sendThrottledWidgetBackMsg_of_late (app : App) (m : BackMsg) (now last : Int)
    (htimer : app.widgetThrottleTimer = none) (hlast : app.lastBackMsgTime = some last)
    (hlate : now - last ≥ THROTTLE_MS) :
    sendThrottledWidgetBackMsg app (some m) now =
      { sendBackMsg { app with latestWidgetBackMsg := some m } m with
        lastBackMsgTime := some now
        latestWidgetBackMsg := none
        widgetThrottleTimer := none } := by
  simp [sendThrottledWidgetBackMsg, sendLatestWidgetBackMsg, htimer, hlast, hlate]

/-- C14: for a call `sendThrottledWidgetBackMsg(m)` at time `t` on a mounted
component whose last recorded send time is `L`, with `W = 400`: if no timer is
armed and `t - L ≥ W`, `m` is sent at once, the last-send time becomes `t`,
and afterwards no envelope is held and no timer is armed; otherwise nothing is
sent, `m` becomes the held envelope, a timer is armed with delay exactly
`W - (t - L)` if none was armed, and an armed timer is left as it is. -/
theorem sendThrottledWidgetBackMsg_cases (app : App) (cm : ConnectionManager) (m : BackMsg)
    (t L : Int) (hcm : app.connectionManager = some cm)
    (hL : app.lastBackMsgTime = some L) :
    THROTTLE_MS = 400 ∧
    (app.widgetThrottleTimer = none ∧ t - L ≥ 400 →
      (sendThrottledWidgetBackMsg app (some m) t).sent = app.sent ++ [m] ∧
      (sendThrottledWidgetBackMsg app (some m) t).lastBackMsgTime = some t ∧
      (sendThrottledWidgetBackMsg app (some m) t).latestWidgetBackMsg = none ∧
      (sendThrottledWidgetBackMsg app (some m) t).widgetThrottleTimer = none) ∧
    (¬ (app.widgetThrottleTimer = none ∧ t - L ≥ 400) →
      (sendThrottledWidgetBackMsg app (some m) t).sent = app.sent ∧
      (sendThrottledWidgetBackMsg app (some m) t).latestWidgetBackMsg = some m ∧
      (sendThrottledWidgetBackMsg app (some m) t).lastBackMsgTime = some L ∧
      (app.widgetThrottleTimer = none →
        (sendThrottledWidgetBackMsg app (some m) t).widgetThrottleTimer =
          some (400 - (t - L))) ∧
      (∀ delay, app.widgetThrottleTimer = some delay →
        (sendThrottledWidgetBackMsg app (some m) t).widgetThrottleTimer = some delay)) := by
  refine ⟨rfl, ?_, ?_⟩
  · rintro ⟨htimer, hlate⟩
    rw [sendThrottledWidgetBackMsg_of_late app m t L htimer hL hlate]
    simp [sendBackMsg, hcm]
  · intro hnot
    cases htimer : app.widgetThrottleTimer with
    | some delay =>
      rw [sendThrottledWidgetBackMsg_of_armed app (some m) t delay htimer]
      simp [hL, htimer]
    | none =>
      have hearly : t - L < THROTTLE_MS := by
        by_contra hge
        exact hnot ⟨htimer, not_lt.1 hge⟩
      rw [sendThrottledWidgetBackMsg_of_early app (some m) t L htimer hL hearly]
      simp [hL, THROTTLE_MS]

/-- C14 at concrete inputs: with the last send at `1000`, a request at `1500`
is sent at once and a request at `1100` is held behind a timer of `300`. -/
theorem sendThrottledWidgetBackMsg_cases_witness :
    ((sendThrottledWidgetBackMsg throttledApp (some (BackMsg.widget "v")) 1500).sent =
        throttledApp.sent ++ [BackMsg.widget "v"] ∧
      (sendThrottledWidgetBackMsg throttledApp (some (BackMsg.widget "v")) 1500).lastBackMsgTime
        = some 1500 ∧
      (sendThrottledWidgetBackMsg throttledApp
        (some (BackMsg.widget "v")) 1500).latestWidgetBackMsg = none ∧
      (sendThrottledWidgetBackMsg throttledApp
        (some (BackMsg.widget "v")) 1500).widgetThrottleTimer = none) ∧
    (sendThrottledWidgetBackMsg throttledApp (some (BackMsg.widget "v")) 1100).sent =
      throttledApp.sent ∧
    (sendThrottledWidgetBackMsg throttledApp (some (BackMsg.widget "v")) 1100).widgetThrottleTimer
      = some (400 - (1100 - 1000)) :=
  ⟨(sendThrottledWidgetBackMsg_cases throttledApp
      { isConnected := true, isStaticConnection := false }
      (BackMsg.widget "v") 1500 1000 rfl rfl).2.1 ⟨rfl, by decide⟩,
   ((sendThrottledWidgetBackMsg_cases throttledApp
      { isConnected := true, isStaticConnection := false }
      (BackMsg.widget "v") 1100 1000 rfl rfl).2.2 (by decide)).1,
   ((sendThrottledWidgetBackMsg_cases throttledApp
      { isConnected := true, isStaticConnection := false }
      (BackMsg.widget "v") 1100 1000 rfl rfl).2.2 (by decide)).2.2.2.1 rfl⟩

/-- A request for a message made less than `THROTTLE_MS` after the last send
holds the message behind an armed timer and changes nothing else. -/
theorem sendThrottledWidgetBackMsg_holds (app : App) (m : BackMsg) (now last : Int)
    (hlast : app.lastBackMsgTime = some last) (hearly : now - last < THROTTLE_MS) :
    ∃ delay, sendThrottledWidgetBackMsg app (some m) now =
      { app with latestWidgetBackMsg := some m, widgetThrottleTimer := some delay } := by
  cases htimer : app.widgetThrottleTimer with
  | some delay =>
    refine ⟨delay, ?_⟩
    rw [sendThrottledWidgetBackMsg_of_armed app (some m) now delay htimer, ← htimer]
  | none =>
    exact ⟨_, sendThrottledWidgetBackMsg_of_early app (some m) now last htimer hlast hearly⟩

/-- After a non-empty run of early requests the last message is held behind an
armed timer and nothing else has changed. -/
theorem throttleRun_requests_holds (last : Int) (vn : BackMsg) (tn : Int) :
    ∀ (reqs : List (BackMsg × Int)) (app : App),
      app.lastBackMsgTime = some last →
      (∀ r ∈ reqs ++ [(vn, tn)], r.2 - last < THROTTLE_MS) →
      ∃ delay, throttleRun app (requests (reqs ++ [(vn, tn)])) =
        { app with latestWidgetBackMsg := some vn, widgetThrottleTimer := some delay } := by
  intro reqs
  induction reqs with
  | nil =>
    intro app hlast hearly
    have h := hearly (vn, tn) (by simp)
    exact sendThrottledWidgetBackMsg_holds app vn tn last hlast h
  | cons r rest ih =>
    intro app hlast hearly
    obtain ⟨d1, h1⟩ := sendThrottledWidgetBackMsg_holds app r.1 r.2 last hlast
      (hearly r (by simp))
    have hrest : ∀ q ∈ rest ++ [(vn, tn)], q.2 - last < THROTTLE_MS := by
      intro q hq
      exact hearly q (by simp only [List.cons_append, List.mem_cons]; exact Or.inr hq)
    obtain ⟨d2, h2⟩ := ih
      { app with latestWidgetBackMsg := some r.1, widgetThrottleTimer := some d1 } hlast hrest
    refine ⟨d2, ?_⟩
    have hstep : throttleRun app (requests ((r :: rest) ++ [(vn, tn)])) =
        throttleRun (sendThrottledWidgetBackMsg app (some r.1) r.2)
          (requests (rest ++ [(vn, tn)])) := rfl
    rw [hstep, h1, h2]

/-- C15: for every non-empty sequence of messages `v1..vn` requested on a
mounted component, each less than `W` after the previous send at `L` and
before the timer fires, none is sent at request time (after the requests the
sent envelopes and the last-send time are as before, `vn` is held and a timer
is armed), and the firing of the timer sends exactly one envelope, `vn`, then
leaves no held envelope, records its own time as the last-send time and
leaves no timer armed. -/
theorem throttle_sends_last_only (app : App) (cm : ConnectionManager) (L : Int)
    (reqs : List (BackMsg × Int)) (vn : BackMsg) (tn fireTime : Int)
    (hcm : app.connectionManager = some cm) (hL : app.lastBackMsgTime = some L)
    (hearly : ∀ r ∈ reqs ++ [(vn, tn)], r.2 - L < THROTTLE_MS) :
    (throttleRun app (requests (reqs ++ [(vn, tn)]))).sent = app.sent ∧
    (throttleRun app (requests (reqs ++ [(vn, tn)]))).lastBackMsgTime = some L ∧
    (throttleRun app (requests (reqs ++ [(vn, tn)]))).latestWidgetBackMsg = some vn ∧
    (throttleRun app (requests (reqs ++ [(vn, tn)]))).widgetThrottleTimer ≠ none ∧
    (throttleRun app
        (requests (reqs ++ [(vn, tn)]) ++ [ThrottleOp.fire fireTime])).sent = app.sent ++ [vn] ∧
    (throttleRun app
        (requests (reqs ++ [(vn, tn)]) ++ [ThrottleOp.fire fireTime])).latestWidgetBackMsg
      = none ∧
    (throttleRun app
        (requests (reqs ++ [(vn, tn)]) ++ [ThrottleOp.fire fireTime])).lastBackMsgTime
      = some fireTime ∧
    (throttleRun app
        (requests (reqs ++ [(vn, tn)]) ++ [ThrottleOp.fire fireTime])).widgetThrottleTimer
      = none := by
  obtain ⟨delay, hheld⟩ := throttleRun_requests_holds L vn tn reqs app hL hearly
  have hfire : throttleRun app (requests (reqs ++ [(vn, tn)]) ++ [ThrottleOp.fire fireTime]) =
      sendLatestWidgetBackMsg (throttleRun app (requests (reqs ++ [(vn, tn)]))) fireTime := by
    simp [throttleRun, List.foldl_append, throttleStep]
  rw [hfire, hheld]
  simp [hL, sendLatestWidgetBackMsg, sendBackMsg, hcm]

/-- C15 at a concrete input: five values requested within 250 ms of a send at
`1000`, and the timer firing at `1400`. -/
theorem throttle_sends_last_only_witness :
    (throttleRun throttledApp
        (requests ([(BackMsg.widget "v1", 1050), (BackMsg.widget "v2", 1100),
            (BackMsg.widget "v3", 1150), (BackMsg.widget "v4", 1200)] ++
          [(BackMsg.widget "v5", 1250)]) ++ [ThrottleOp.fire 1400])).sent =
      throttledApp.sent ++ [BackMsg.widget "v5"] :=
  (throttle_sends_last_only throttledApp { isConnected := true, isStaticConnection := false }
    1000
    [(BackMsg.widget "v1", 1050), (BackMsg.widget "v2", 1100),
      (BackMsg.widget "v3", 1150), (BackMsg.widget "v4", 1200)]
    (BackMsg.widget "v5") 1250 1400 rfl rfl
    (by
      intro r hr
      simp only [List.cons_append, List.nil_append, List.mem_cons, List.mem_singleton,
        List.not_mem_nil, or_false] at hr
      rcases hr with h | h | h | h | h <;> (subst h; decide))).2.2.2.2.1

/-- One throttle operation with a non-null message keeps "a timer is armed
exactly when an envelope is held". -/
theorem throttleStep_armed_iff_held (app : App) (op : ThrottleOp)
    (hop : op.nonNull = true)
    (_h : app.widgetThrottleTimer.isSome = app.latestWidgetBackMsg.isSome) :
    (throttleStep app op).widgetThrottleTimer.isSome =
      (throttleStep app op).latestWidgetBackMsg.isSome := by
  cases op with
  | fire now => simp [throttleStep, sendLatestWidgetBackMsg]
  | request msg now =>
    cases msg with
    | none => simp [ThrottleOp.nonNull] at hop
    | some m =>
      cases htimer : app.widgetThrottleTimer with
      | some delay => simp [throttleStep, sendThrottledWidgetBackMsg, htimer]
      | none =>
        cases hlast : app.lastBackMsgTime with
        | none => simp [throttleStep, sendThrottledWidgetBackMsg, htimer, hlast]
        | some last =>
          by_cases hlate : now - last ≥ THROTTLE_MS
          · simp [throttleStep, sendThrottledWidgetBackMsg, sendLatestWidgetBackMsg, htimer,
              hlast, hlate]
          · simp [throttleStep, sendThrottledWidgetBackMsg, htimer, hlast, hlate]

/-- A run of throttle operations with non-null messages keeps "a timer is
armed exactly when an envelope is held". -/
theorem throttleRun_armed_iff_held (ops : List ThrottleOp) :
    ∀ app : App, (∀ op ∈ ops, op.nonNull = true) →
      app.widgetThrottleTimer.isSome = app.latestWidgetBackMsg.isSome →
      (throttleRun app ops).widgetThrottleTimer.isSome =
        (throttleRun app ops).latestWidgetBackMsg.isSome := by
  induction ops with
  | nil => intro app _ h; exact h
  | cons op rest ih =>
    intro app hops h
    exact ih (throttleStep app op) (fun o ho => hops o (List.mem_cons_of_mem _ ho))
      (throttleStep_armed_iff_held app op (hops op (List.mem_cons_self _ _)) h)

/-- Throttle operations never touch the connection manager. -/
theorem throttleRun_connectionManager (ops : List ThrottleOp) :
    ∀ app : App, (throttleRun app ops).connectionManager = app.connectionManager := by
  induction ops with
  | nil => intro app; rfl
  | cons op rest ih =>
    intro app
    have hstep : (throttleStep app op).connectionManager = app.connectionManager := by
      cases op with
      | fire now =>
        cases hheld : app.latestWidgetBackMsg <;>
          cases hcm : app.connectionManager <;>
          simp [throttleStep, sendLatestWidgetBackMsg, sendBackMsg, logError, hheld, hcm]
      | request msg now =>
        simp only [throttleStep, sendThrottledWidgetBackMsg]
        cases htimer : app.widgetThrottleTimer with
        | some delay => simp
        | none =>
          cases hlast : app.lastBackMsgTime with
          | none => simp
          | some last =>
            by_cases hlate : now - last ≥ THROTTLE_MS
            · cases msg <;> cases hcm : app.connectionManager <;>
                simp [sendLatestWidgetBackMsg, sendBackMsg, logError, hlate, hcm]
            · simp [hlate]
    exact (ih (throttleStep app op)).trans hstep

/-- C17: starting from a component with no held envelope and no timer (the
state the constructor sets up), after each operation of every sequence of
requests with non-null messages and timer firings, a timer is armed if and
only if an envelope is held, so a held envelope always has a timer that will
send it; and on a mounted component a request for `m` made at any such point
ends with `m` sent or with `m` as the held envelope. -/
theorem throttle_armed_iff_held (app : App) (ops : List ThrottleOp)
    (hheld : app.latestWidgetBackMsg = none) (htimer : app.widgetThrottleTimer = none)
    (hops : ∀ op ∈ ops, op.nonNull = true) :
    (∀ done, done <+: ops →
      ((throttleRun app done).widgetThrottleTimer ≠ none ↔
        (throttleRun app done).latestWidgetBackMsg ≠ none)) ∧
    (∀ done, done <+: ops →
      ∀ held, (throttleRun app done).latestWidgetBackMsg = some held →
        ∃ delay, (throttleRun app done).widgetThrottleTimer = some delay ∧
          ∀ cm, app.connectionManager = some cm → ∀ now,
            (sendLatestWidgetBackMsg (throttleRun app done) now).sent =
              (throttleRun app done).sent ++ [held]) ∧
    (∀ cm, app.connectionManager = some cm → ∀ done, done <+: ops → ∀ (m : BackMsg) (t : Int),
      (sendThrottledWidgetBackMsg (throttleRun app done) (some m) t).latestWidgetBackMsg
          = some m ∨
        (sendThrottledWidgetBackMsg (throttleRun app done) (some m) t).sent =
          (throttleRun app done).sent ++ [m]) := by
  have hinv : ∀ done, done <+: ops →
      (throttleRun app done).widgetThrottleTimer.isSome =
        (throttleRun app done).latestWidgetBackMsg.isSome := by
    intro done hdone
    apply throttleRun_armed_iff_held done app
    · intro op hop
      exact hops op (hdone.subset hop)
    · simp [hheld, htimer]
  refine ⟨?_, ?_, ?_⟩
  · intro done hdone
    have h := hinv done hdone
    rw [← Option.isSome_iff_ne_none, ← Option.isSome_iff_ne_none, h]
  · intro done hdone held hh
    have h := hinv done hdone
    rw [hh] at h
    obtain ⟨delay, hd⟩ := Option.isSome_iff_exists.1 h
    refine ⟨delay, hd, ?_⟩
    intro cm hcm now
    have hcm1 : (throttleRun app done).connectionManager = some cm := by
      rw [throttleRun_connectionManager done app, hcm]
    simp [sendLatestWidgetBackMsg, sendBackMsg, hh, hcm1]
  · intro cm hcm done _ m t
    have hcm1 : (throttleRun app done).connectionManager = some cm := by
      rw [throttleRun_connectionManager done app, hcm]
    generalize throttleRun app done = cur at hcm1
    cases hcur : cur.widgetThrottleTimer with
    | some delay =>
      left
      simp [sendThrottledWidgetBackMsg, hcur]
    | none =>
      cases hlast : cur.lastBackMsgTime with
      | none =>
        left
        simp [sendThrottledWidgetBackMsg, hcur, hlast]
      | some last =>
        by_cases hlate : t - last ≥ THROTTLE_MS
        · right
          simp [sendThrottledWidgetBackMsg, sendLatestWidgetBackMsg, sendBackMsg, hcur, hlast,
            hlate, hcm1]
        · left
          simp [sendThrottledWidgetBackMsg, hcur, hlast, hlate]

/-- C17 at a concrete input: on the freshly mounted component, a request, the
firing of its timer, and two requests in a row. -/
theorem throttle_armed_iff_held_witness :
    ((throttleRun (mountedApp ReportRunState.RUNNING)
        [ThrottleOp.request (some (BackMsg.widget "a")) 10, ThrottleOp.fire 10,
         ThrottleOp.request (some (BackMsg.widget "b")) 20,
         ThrottleOp.request (some (BackMsg.widget "c")) 30]).widgetThrottleTimer ≠ none ↔
      (throttleRun (mountedApp ReportRunState.RUNNING)
        [ThrottleOp.request (some (BackMsg.widget "a")) 10, ThrottleOp.fire 10,
         ThrottleOp.request (some (BackMsg.widget "b")) 20,
         ThrottleOp.request (some (BackMsg.widget "c")) 30]).latestWidgetBackMsg ≠ none) :=
  (throttle_armed_iff_held (mountedApp ReportRunState.RUNNING)
    [ThrottleOp.request (some (BackMsg.widget "a")) 10, ThrottleOp.fire 10,
     ThrottleOp.request (some (BackMsg.widget "b")) 20,
     ThrottleOp.request (some (BackMsg.widget "c")) 30]
    rfl rfl (by decide)).1 _ (List.prefix_refl _)

/-- Appending a send time that is `THROTTLE_MS` or more after the stored
last-send time keeps the recorded send times spaced. -/
theorem chain_sendTimes_append (sendTimes : List Int) (stored : Option Int) (now : Int)
    (hchain : List.Chain' (fun a b => a + THROTTLE_MS ≤ b) sendTimes)
    (hlast : ∀ s ∈ sendTimes.getLast?, ∃ last, stored = some last ∧ s ≤ last)
    (hnow : ∀ last, stored = some last → last + THROTTLE_MS ≤ now) :
    List.Chain' (fun a b => a + THROTTLE_MS ≤ b) (sendTimes ++ [now]) := by
  rw [List.chain'_append]
  refine ⟨hchain, List.chain'_singleton _, ?_⟩
  intro x hx y hy
  obtain ⟨last, hstored, hle⟩ := hlast x hx
  have hy1 : y = now := by simpa using hy.symm
  have := hnow last hstored
  omega

/-- The step `sendLatestWidgetBackMsg` at a time that is `THROTTLE_MS` or more
after the stored last-send time keeps the invariant. -/
theorem TimedThrottle.spaced_of_send (r : TimedThrottle) (app0 : App) (op : ThrottleOp)
    (hr : r.Spaced) (hstep : throttleStep r.app op = sendLatestWidgetBackMsg app0 op.time)
    (hsent : app0.sent = r.app.sent) (hstored : app0.lastBackMsgTime = r.app.lastBackMsgTime)
    (hnow : ∀ last, r.app.lastBackMsgTime = some last → last + THROTTLE_MS ≤ op.time) :
    (r.step op).Spaced := by
  obtain ⟨hchain, hlast, _⟩ := hr
  have hW : (0 : Int) ≤ THROTTLE_MS := by decide
  cases hheld : app0.latestWidgetBackMsg with
  | none =>
    have happ : throttleStep r.app op =
        { app0 with latestWidgetBackMsg := none, widgetThrottleTimer := none } := by
      rw [hstep]; simp [sendLatestWidgetBackMsg, hheld]
    refine ⟨?_, ?_, ?_⟩
    · simp [TimedThrottle.step, happ, hsent, hchain]
    · simpa [TimedThrottle.step, happ, hsent, hstored] using hlast
    · simp [TimedThrottle.step, happ]
  | some m =>
    cases hcm : app0.connectionManager with
    | none =>
      have happ : throttleStep r.app op =
          { app0 with logged := app0.logged ++
                        ["Not connected. Cannot send back message: [object Object]"]
                      lastBackMsgTime := some op.time
                      latestWidgetBackMsg := none, widgetThrottleTimer := none } := by
        rw [hstep]; simp [sendLatestWidgetBackMsg, sendBackMsg, logError, hheld, hcm]
      refine ⟨?_, ?_, ?_⟩
      · simp [TimedThrottle.step, happ, hsent, hchain]
      · intro s hs
        have hs1 : s ∈ r.sendTimes.getLast? := by
          simpa [TimedThrottle.step, happ, hsent] using hs
        obtain ⟨last, hl, hle⟩ := hlast s hs1
        have := hnow last hl
        refine ⟨op.time, by simp [TimedThrottle.step, happ], ?_⟩
        omega
      · simp [TimedThrottle.step, happ]
    | some cm =>
      have happ : throttleStep r.app op =
          { app0 with sent := app0.sent ++ [m]
                      lastBackMsgTime := some op.time
                      latestWidgetBackMsg := none, widgetThrottleTimer := none } := by
        rw [hstep]; simp [sendLatestWidgetBackMsg, sendBackMsg, hheld, hcm]
      refine ⟨?_, ?_, ?_⟩
      · have : (r.step op).sendTimes = r.sendTimes ++ [op.time] := by
          simp [TimedThrottle.step, happ, hsent]
        rw [this]
        exact chain_sendTimes_append r.sendTimes r.app.lastBackMsgTime op.time hchain hlast hnow
      · intro s hs
        have hs1 : s = op.time := by
          simpa [TimedThrottle.step, happ, hsent, List.getLast?_concat] using hs.symm
        exact ⟨op.time, by simp [TimedThrottle.step, happ], le_of_eq hs1⟩
      · simp [TimedThrottle.step, happ]

/-- A timely operation keeps the invariant. -/
theorem TimedThrottle.spaced_step (r : TimedThrottle) (op : ThrottleOp)
    (hr : r.Spaced) (htimely : r.timely op = true) : (r.step op).Spaced := by
  cases op with
  | fire now =>
    cases htimer : r.app.widgetThrottleTimer with
    | none => simp [TimedThrottle.timely, htimer] at htimely
    | some delay =>
      cases harmed : r.armedAt with
      | none => simp [TimedThrottle.timely, htimer, harmed] at htimely
      | some armed =>
        have hdue : armed + delay ≤ now := by
          simpa [TimedThrottle.timely, htimer, harmed] using htimely
        apply TimedThrottle.spaced_of_send r r.app (ThrottleOp.fire now) hr rfl rfl rfl
        intro last hlast
        obtain ⟨armed1, ha1, hbound⟩ := hr.2.2 delay htimer
        rw [harmed] at ha1
        cases ha1
        have := hbound last hlast
        show last + THROTTLE_MS ≤ now
        omega
  | request msg now =>
    cases htimer : r.app.widgetThrottleTimer with
    | some delay =>
      have happ : throttleStep r.app (ThrottleOp.request msg now) =
          { r.app with latestWidgetBackMsg := msg } :=
        sendThrottledWidgetBackMsg_of_armed r.app msg now delay htimer
      obtain ⟨hchain, hlast, harm⟩ := hr
      refine ⟨?_, ?_, ?_⟩
      · simp [TimedThrottle.step, happ, hchain]
      · simpa [TimedThrottle.step, happ] using hlast
      · simpa [TimedThrottle.step, happ, htimer] using harm
    | none =>
      cases hstored : r.app.lastBackMsgTime with
      | none =>
        have happ : throttleStep r.app (ThrottleOp.request msg now) =
            { r.app with latestWidgetBackMsg := msg, widgetThrottleTimer := some 0 } := by
          simp [throttleStep, sendThrottledWidgetBackMsg, htimer, hstored]
        obtain ⟨hchain, hlast, _⟩ := hr
        refine ⟨?_, ?_, ?_⟩
        · simp [TimedThrottle.step, happ, hchain]
        · simpa [TimedThrottle.step, happ] using hlast
        · simp [TimedThrottle.step, happ, htimer, hstored]
      | some last =>
        by_cases hlate : now - last ≥ THROTTLE_MS
        · apply TimedThrottle.spaced_of_send r { r.app with latestWidgetBackMsg := msg }
            (ThrottleOp.request msg now) hr
          · simp [throttleStep, sendThrottledWidgetBackMsg, htimer, hstored, hlate,
              ThrottleOp.time]
          · rfl
          · rfl
          · intro last1 hlast1
            rw [hstored] at hlast1
            cases hlast1
            show last + THROTTLE_MS ≤ now
            omega
        · have happ : throttleStep r.app (ThrottleOp.request msg now) =
              { r.app with latestWidgetBackMsg := msg
                           widgetThrottleTimer := some (THROTTLE_MS - (now - last)) } :=
            sendThrottledWidgetBackMsg_of_early r.app msg now last htimer hstored
              (not_le.1 hlate)
          obtain ⟨hchain, hlast, _⟩ := hr
          refine ⟨?_, ?_, ?_⟩
          · simp [TimedThrottle.step, happ, hchain]
          · simpa [TimedThrottle.step, happ] using hlast
          · simp only [TimedThrottle.step, happ, htimer, ThrottleOp.time]
            intro delay hdelay
            refine ⟨now, rfl, ?_⟩
            intro last1 hlast1
            simp only [hstored, Option.some.injEq] at hlast1 hdelay
            omega

/-- A timely run keeps the invariant. -/
theorem TimedThrottle.spaced_run (ops : List ThrottleOp) :
    ∀ r : TimedThrottle, r.Spaced → r.timelyRun ops = true → (r.run ops).Spaced := by
  induction ops with
  | nil => intro r hr _; exact hr
  | cons op rest ih =>
    intro r hr htimely
    simp only [TimedThrottle.timelyRun, Bool.and_eq_true] at htimely
    exact ih (r.step op) (TimedThrottle.spaced_step r op hr htimely.1) htimely.2

/-- One throttle operation sends at most one envelope. -/
theorem throttleStep_sent (app : App) (op : ThrottleOp) :
    (throttleStep app op).sent = app.sent ∨ ∃ m, (throttleStep app op).sent = app.sent ++ [m] := by
  have hsend : ∀ (a : App) (now : Int), (sendLatestWidgetBackMsg a now).sent = a.sent ∨
      ∃ m, (sendLatestWidgetBackMsg a now).sent = a.sent ++ [m] := by
    intro a now
    cases hheld : a.latestWidgetBackMsg with
    | none => left; simp [sendLatestWidgetBackMsg, hheld]
    | some m =>
      cases hcm : a.connectionManager with
      | none => left; simp [sendLatestWidgetBackMsg, sendBackMsg, logError, hheld, hcm]
      | some cm => right; exact ⟨m, by simp [sendLatestWidgetBackMsg, sendBackMsg, hheld, hcm]⟩
  cases op with
  | fire now => exact hsend app now
  | request msg now =>
    cases htimer : app.widgetThrottleTimer with
    | some delay => left; simp [throttleStep, sendThrottledWidgetBackMsg, htimer]
    | none =>
      cases hstored : app.lastBackMsgTime with
      | none => left; simp [throttleStep, sendThrottledWidgetBackMsg, htimer, hstored]
      | some last =>
        by_cases hlate : now - last ≥ THROTTLE_MS
        · have : throttleStep app (ThrottleOp.request msg now) =
              sendLatestWidgetBackMsg { app with latestWidgetBackMsg := msg } now := by
            simp [throttleStep, sendThrottledWidgetBackMsg, htimer, hstored, hlate]
          rw [this]
          exact hsend _ now
        · left; simp [throttleStep, sendThrottledWidgetBackMsg, htimer, hstored, hlate]

/-- The observed throttle runs the component as `throttleRun` does, and it
records one send time for each envelope that the run sends. -/
theorem TimedThrottle.run_faithful (ops : List ThrottleOp) :
    ∀ r : TimedThrottle,
      (r.run ops).app = throttleRun r.app ops ∧
      (r.run ops).app.sent.length + r.sendTimes.length =
        r.app.sent.length + (r.run ops).sendTimes.length := by
  induction ops with
  | nil => intro r; exact ⟨rfl, rfl⟩
  | cons op rest ih =>
    intro r
    obtain ⟨h1, h2⟩ := ih (r.step op)
    have happ : (r.step op).app = throttleStep r.app op := rfl
    refine ⟨?_, ?_⟩
    · show ((r.step op).run rest).app = throttleRun (throttleStep r.app op) rest
      rw [h1, happ]
    · show ((r.step op).run rest).app.sent.length + r.sendTimes.length =
        r.app.sent.length + ((r.step op).run rest).sendTimes.length
      have hlen : (r.step op).app.sent.length + r.sendTimes.length =
          r.app.sent.length + (r.step op).sendTimes.length := by
        rcases throttleStep_sent r.app op with h | ⟨m, h⟩
        · simp [TimedThrottle.step, h]
        · simp [TimedThrottle.step, h]
          omega
      omega

/-- C16: for every interleaving of `sendThrottledWidgetBackMsg` calls and
timer firings, started with no timer armed, in which a timer fires only while
armed and no earlier than the delay it was armed with, any two consecutive
envelopes sent by the throttle are sent at least `W = 400` ms apart; the
recorded send times are those of the envelopes the component really sent, one
per envelope. (The proof does not need the clock to be monotone.) -/
theorem throttle_sends_spaced (app : App) (ops : List ThrottleOp)
    (htimer : app.widgetThrottleTimer = none)
    (htimely : (TimedThrottle.start app).timelyRun ops = true) :
    THROTTLE_MS = 400 ∧
    List.Chain' (fun a b => a + 400 ≤ b) ((TimedThrottle.start app).run ops).sendTimes ∧
    ((TimedThrottle.start app).run ops).app = throttleRun app ops ∧
    (throttleRun app ops).sent.length =
      app.sent.length + ((TimedThrottle.start app).run ops).sendTimes.length := by
  have hstart : (TimedThrottle.start app).Spaced := by
    refine ⟨List.chain'_nil, ?_, ?_⟩
    · intro s hs
      simp [TimedThrottle.start] at hs
    · intro delay hdelay
      simp [TimedThrottle.start, htimer] at hdelay
  have hspaced := TimedThrottle.spaced_run ops (TimedThrottle.start app) hstart htimely
  obtain ⟨happ, hlen⟩ := TimedThrottle.run_faithful ops (TimedThrottle.start app)
  refine ⟨rfl, hspaced.1, happ, ?_⟩
  have happ1 : throttleRun app ops = ((TimedThrottle.start app).run ops).app := happ.symm
  rw [happ1]
  simpa [TimedThrottle.start] using hlen

/-- C16 at a concrete input: the sample run on the freshly mounted component
sends at times `10`, `410` and `900`. -/
theorem throttle_sends_spaced_witness :
    ((TimedThrottle.start (mountedApp ReportRunState.RUNNING)).run sampleThrottleOps).sendTimes
      = [10, 410, 900] ∧
    List.Chain' (fun a b => a + 400 ≤ b)
      ((TimedThrottle.start (mountedApp ReportRunState.RUNNING)).run
        sampleThrottleOps).sendTimes :=
  ⟨by decide,
   (throttle_sends_spaced (mountedApp ReportRunState.RUNNING) sampleThrottleOps rfl
    (by decide)).2.1⟩

end Throttle

/-! ## The reportId of the elements: theorems -/

section Stamps

/-- A slot of the list after `ImmutableList.set` is an old slot, a hole, or
the value that was set. -/
theorem ImmutableList.mem_set (elements : Document) (index : Nat) (value : Element)
    (slot : Option Element) (h : slot ∈ ImmutableList.set elements index value) :
    slot ∈ elements ∨ slot = none ∨ slot = some value := by
  unfold ImmutableList.set at h
  split at h
  · rcases List.mem_or_eq_of_mem_set h with h1 | h1
    · exact Or.inl h1
    · exact Or.inr (Or.inr h1)
  · simp only [List.mem_append, List.mem_replicate, List.mem_singleton] at h
    rcases h with (h1 | h1) | h1
    · exact Or.inl h1
    · exact Or.inr (Or.inl h1.2)
    · exact Or.inr (Or.inr h1)

/-- The document after `showError` is the error element alone. -/
theorem showError_elements (app : App) (error : String) (info : Option String) :
    ∃ body, (showError app error info).state.elements =
      [some { reportId := none, body := ElementBody.text TextFormat.ERROR body }] := by
  cases info with
  | none => exact ⟨error, rfl⟩
  | some i => exact ⟨error ++ ".\n" ++ i, rfl⟩

/-- The document after `showError` meets the condition that the reachable
states keep: its one element is the component's own error element. -/
theorem stampedOrLocal_showError (app : App) (error : String) (info : Option String) :
    ∀ e, some e ∈ (showError app error info).state.elements → StampedOrLocal e := by
  intro e he
  obtain ⟨body, hbody⟩ := showError_elements app error info
  rw [hbody] at he
  simp only [List.mem_singleton, Option.some.injEq] at he
  exact Or.inr (Or.inr ⟨body, he⟩)

/-- An admitted or refused delta keeps the condition on the document, given
the contract of `addRows`. -/
theorem stampedOrLocal_applyDelta (addRows : AddRows) (hadd : AddRowsContract addRows)
    (app app1 : App) (delta : Delta)
    (h : ∀ e, some e ∈ app.state.elements → StampedOrLocal e)
    (hok : applyDelta addRows app delta = Except.ok app1) :
    ∀ e, some e ∈ app1.state.elements → StampedOrLocal e := by
  have hupd : updateElements addRows app delta = Except.ok app1 →
      ∀ e, some e ∈ app1.state.elements → StampedOrLocal e := by
    intro hu e he
    simp only [updateElements, ImmutableList.update] at hu
    cases hv : deltaUpdater addRows delta app.state.reportId
        (ImmutableList.get app.state.elements delta.id) with
    | error err => simp [hv] at hu
    | ok value =>
      simp only [hv, Except.ok.injEq] at hu
      subst hu
      rcases ImmutableList.mem_set _ _ _ _ he with h1 | h1 | h1
      · exact h e h1
      · cases h1
      · simp only [Option.some.injEq] at h1
        subst h1
        cases hd : delta.type with
        | newElement element =>
          simp only [deltaUpdater, hd, Except.ok.injEq] at hv
          subst hv
          left
          simp [handleNewElementMessage]
        | addRows namedDataSet =>
          simp only [deltaUpdater, hd, handleAddRowsMessage] at hv
          obtain ⟨old, hold, hid, hbody⟩ := hadd _ _ _ hv
          have hmem : some old ∈ app.state.elements := by
            unfold ImmutableList.get at hold
            cases hget : app.state.elements[delta.id]? with
            | none => simp [hget] at hold
            | some slot =>
              simp only [hget] at hold
              subst hold
              exact List.getElem?_mem hget
          rcases h old hmem with h2 | h2 | ⟨body, h2⟩
          · left
            rw [hid]
            exact h2
          · exact absurd (by rw [h2]; rfl) (hbody TextFormat.INFO "Connecting...")
          · exact absurd (by rw [h2]) (hbody TextFormat.ERROR body)
  unfold applyDelta at hok
  split at hok
  · cases hcm : app.connectionManager with
    | none => simp [hcm] at hok
    | some cm =>
      simp only [hcm] at hok
      split at hok
      · simp only [Except.ok.injEq] at hok
        subst hok
        exact h
      · exact hupd hok
  · exact hupd hok

/-- The effect `logError` leaves the React state alone. -/
theorem logError_state (app : App) (msg : String) : (logError app msg).state = app.state := rfl

/-- The method `sendBackMsg` leaves the React state alone. -/
theorem sendBackMsg_state (app : App) (msg : BackMsg) : (sendBackMsg app msg).state = app.state := by
  unfold sendBackMsg
  cases app.connectionManager <;> rfl

/-- The method `saveSettings` leaves the document alone. -/
theorem saveSettings_elements (app : App) (newSettings : UserSettings) :
    (saveSettings app newSettings).state.elements = app.state.elements := by
  simp only [saveSettings]
  split
  · rw [sendBackMsg_state]
  · rfl

/-- The method `rerunScript` leaves the document alone. -/
theorem rerunScript_elements (app : App) (alwaysRunOnSave : Bool) :
    (rerunScript app alwaysRunOnSave).state.elements = app.state.elements := by
  simp only [rerunScript]
  split
  · rfl
  · split
    · rfl
    · rw [sendBackMsg_state]
      split
      · rw [saveSettings_elements]; rfl
      · rfl

/-- The two entry points of the throttle leave the React state alone. -/
theorem throttleStep_state (app : App) (op : ThrottleOp) :
    (throttleStep app op).state = app.state := by
  have hsend : ∀ (a : App) (now : Int), (sendLatestWidgetBackMsg a now).state = a.state := by
    intro a now
    simp only [sendLatestWidgetBackMsg]
    cases a.latestWidgetBackMsg with
    | none => rfl
    | some m => exact sendBackMsg_state a m
  cases op with
  | fire now => exact hsend app now
  | request msg now =>
    simp only [throttleStep, sendThrottledWidgetBackMsg]
    cases app.widgetThrottleTimer with
    | some delay => rfl
    | none =>
      cases app.lastBackMsgTime with
      | none => rfl
      | some last =>
        simp only
        split
        · rw [hsend]
        · rfl

/-- Every action other than an inbound message and a connection error leaves
the document alone; those two either keep the condition on the document or
replace the document by the error element. -/
theorem stampedOrLocal_step (rerunPromptModalDialog : Bool) (addRows : AddRows)
    (hadd : AddRowsContract addRows) (app : App) (action : Action)
    (h : ∀ e, some e ∈ app.state.elements → StampedOrLocal e) :
    ∀ e, some e ∈ (step rerunPromptModalDialog addRows app action).state.elements →
      StampedOrLocal e := by
  have hsame : ∀ app1 : App, app1.state.elements = app.state.elements →
      ∀ e, some e ∈ app1.state.elements → StampedOrLocal e := by
    intro app1 h1 e he
    rw [h1] at he
    exact h e he
  cases action with
  | componentDidMount cm => exact hsame _ rfl
  | connectionStateChanged cm newState => exact hsame _ rfl
  | connectionError errMsg => exact stampedOrLocal_showError app _ none
  | rerunScript alwaysRunOnSave => exact hsame _ (rerunScript_elements app alwaysRunOnSave)
  | stopReport =>
    apply hsame
    simp only [step, stopReport]
    split
    · rfl
    · split
      · rfl
      · simp only [sendBackMsg_state]
  | clearCache =>
    apply hsame
    simp only [step, clearCache]
    split
    · rw [sendBackMsg_state]; rfl
    · rfl
  | saveReport =>
    apply hsame
    simp only [step, saveReport]
    split
    · split
      · rw [sendBackMsg_state]
      · rfl
    · rfl
  | saveSettings newSettings => exact hsame _ (saveSettings_elements app newSettings)
  | openRerunScriptDialog =>
    apply hsame
    simp only [step, openRerunScriptDialog]
    split <;> rfl
  | openClearCacheDialog =>
    apply hsame
    simp only [step, openClearCacheDialog]
    split <;> rfl
  | closeDialog => exact hsame _ rfl
  | setCommandLine commandLine => exact hsame _ rfl
  | widgetBackMsg msg now =>
    apply hsame
    exact congrArg State.elements (throttleStep_state app (ThrottleOp.request msg now))
  | throttleTimer now =>
    apply hsame
    exact congrArg State.elements (throttleStep_state app (ThrottleOp.fire now))
  | message msgProto =>
    simp only [step, handleMessage]
    cases hd : dispatchProto rerunPromptModalDialog addRows app msgProto with
    | error thrown => exact stampedOrLocal_showError thrown.app thrown.error none
    | ok app1 =>
      simp only
      cases msgProto with
      | init initializeMsg =>
        simp only [dispatchProto, handleInitialize] at hd
        cases hu : initializeMsg.userInfo with
        | none => simp [hu] at hd
        | some userInfo =>
          cases hs : initializeMsg.sessionState with
          | none => simp [hu, hs] at hd
          | some initialState =>
            simp only [hu, hs, Except.ok.injEq] at hd
            subst hd
            exact hsame _ rfl
      | sessionStateChanged msg =>
        simp only [dispatchProto, Except.ok.injEq] at hd
        subst hd
        exact hsame _ rfl
      | sessionEvent evtMsg =>
        simp only [dispatchProto, Except.ok.injEq] at hd
        subst hd
        apply hsame
        cases evtMsg with
        | scriptCompilationException exception => rfl
        | reportChangedOnDisk =>
          simp only [handleSessionEvent]
          split <;> rfl
        | other type => rfl
      | newReport newReportMsg =>
        simp only [dispatchProto, Except.ok.injEq] at hd
        subst hd
        exact hsame _ rfl
      | delta deltaMsg =>
        simp only [dispatchProto] at hd
        cases ha : applyDelta addRows app deltaMsg with
        | error err => simp [ha] at hd
        | ok app2 =>
          simp only [ha, Except.ok.injEq] at hd
          subst hd
          exact stampedOrLocal_applyDelta addRows hadd app app2 deltaMsg h ha
      | reportFinished =>
        simp only [dispatchProto, Except.ok.injEq] at hd
        subst hd
        intro e he
        apply h e
        simp only [handleReportFinished] at he
        split at he
        · exact (List.mem_filter.1 he).1
        · exact he
      | uploadReportProgress progress =>
        simp only [dispatchProto, Except.ok.injEq] at hd
        subst hd
        exact hsame _ rfl
      | reportUploaded url =>
        simp only [dispatchProto, Except.ok.injEq] at hd
        subst hd
        exact hsame _ rfl
      | other type => simp [dispatchProto] at hd

/-- C11, refuted as stated: the component as constructed is a reachable state
whose only element, the `Connecting...` text, carries no `reportId`; the
same holds for the error element after an envelope of unknown type. So it is
not the case that every element of every reachable state carries one. -/
theorem reachable_element_without_reportId :
    App.constructor.state.elements =
      [some { reportId := none, body := ElementBody.text TextFormat.INFO "Connecting..." }] ∧
    (run false sampleAddRows App.constructor
        [Action.message (ForwardMsg.other "ping")]).state.elements =
      [some { reportId := none,
              body := ElementBody.text TextFormat.ERROR
                "Error: Cannot handle type \"ping\"." }] ∧
    ¬ (∀ actions : List Action, ∀ e,
        some e ∈ (run false sampleAddRows App.constructor actions).state.elements →
          e.reportId ≠ none) := by
  refine ⟨rfl, rfl, ?_⟩
  intro hall
  exact hall [] (makeElementWithInfoText "Connecting...") (List.mem_singleton.2 rfl) rfl

/-- C11, amended: in every state reached from the constructed component by
inbound messages, user actions, throttle operations and the error path, every
element in the document carries a `reportId` or is one of the two text
elements the component builds itself without one (the `Connecting...` element
and the error element of `showError`), provided `addRows` meets its contract
(it succeeds only on an existing non-text element and keeps its `reportId`);
and a `newElement` delta that arrives in such a state and passes the guard
leaves in its slot the delta's element carrying the `reportId` that was
current when it arrived. -/
theorem reachable_elements_stamped_or_local (rerunPromptModalDialog : Bool) (addRows : AddRows)
    (hadd : AddRowsContract addRows) (actions : List Action) :
    (∀ e, some e ∈ (run rerunPromptModalDialog addRows App.constructor actions).state.elements →
      StampedOrLocal e) ∧
    (∀ (i : Nat) (element : Element),
      ((run rerunPromptModalDialog addRows App.constructor actions).state.reportRunState
          = ReportRunState.RUNNING ∨
        ∃ cm, (run rerunPromptModalDialog addRows App.constructor actions).connectionManager
          = some cm ∧ cm.isStaticConnection = true) →
      (run rerunPromptModalDialog addRows App.constructor
          (actions ++ [Action.message (ForwardMsg.delta
            { id := i, type := DeltaType.newElement element })])).state.elements[i]? =
        some (some { element with
          reportId := some
            (run rerunPromptModalDialog addRows App.constructor actions).state.reportId })) := by
  have hgen : ∀ (acts : List Action) (app : App),
      (∀ e, some e ∈ app.state.elements → StampedOrLocal e) →
      ∀ e, some e ∈ (run rerunPromptModalDialog addRows app acts).state.elements →
        StampedOrLocal e := by
    intro acts
    induction acts with
    | nil => intro app h; exact h
    | cons action rest ih =>
      intro app h
      exact ih (step rerunPromptModalDialog addRows app action)
        (stampedOrLocal_step rerunPromptModalDialog addRows hadd app action h)
  constructor
  · apply hgen actions App.constructor
    intro e he
    have : e = makeElementWithInfoText "Connecting..." := by
      simpa [App.constructor] using he
    exact Or.inr (Or.inl this)
  · intro i element hpass
    have hrun : run rerunPromptModalDialog addRows App.constructor
        (actions ++ [Action.message (ForwardMsg.delta
          { id := i, type := DeltaType.newElement element })]) =
        handleMessage rerunPromptModalDialog addRows
          (run rerunPromptModalDialog addRows App.constructor actions)
          (ForwardMsg.delta { id := i, type := DeltaType.newElement element }) := by
      simp [run, List.foldl_append, step]
    rw [hrun]
    generalize run rerunPromptModalDialog addRows App.constructor actions = cur at hpass
    have hok : applyDelta addRows cur { id := i, type := DeltaType.newElement element } =
        Except.ok { cur with state := { cur.state with
          elements := ImmutableList.set cur.state.elements i
            { element with reportId := some cur.state.reportId } } } := by
      rw [applyDelta_of_pass addRows cur _ hpass]
      simp [updateElements, ImmutableList.update, deltaUpdater, handleNewElementMessage]
    simp only [handleMessage, dispatchProto, hok]
    exact ImmutableList.getElem?_set_self _ _ _

/-- The sample `addRows` meets the contract. -/
theorem sampleAddRows_contract : AddRowsContract sampleAddRows := by
  intro element namedDataSet result h
  cases element with
  | none => simp [sampleAddRows] at h
  | some e =>
    refine ⟨e, rfl, ?_⟩
    cases hb : e.body with
    | text format body => simp [sampleAddRows, hb] at h
    | empty unused => simp [sampleAddRows, hb] at h
    | other type payload =>
      simp only [sampleAddRows, hb, Except.ok.injEq] at h
      subst h
      exact ⟨rfl, fun format body => by simp⟩

/-- C11 (amended) at a concrete input: after the sample session the document
holds the `Connecting...` element and the chart stamped `run-1` with its added
rows, both meet the condition, and a further `newElement` delta for slot `2`
is stored with the stamp `run-1`. -/
theorem reachable_elements_stamped_or_local_witness :
    (run false sampleAddRows App.constructor sampleActions).state.elements =
      [some { reportId := none, body := ElementBody.text TextFormat.INFO "Connecting..." },
       some { reportId := some "run-1", body := ElementBody.other "chart" "data+rows" }] ∧
    (∀ e, some e ∈ (run false sampleAddRows App.constructor sampleActions).state.elements →
      StampedOrLocal e) ∧
    (run false sampleAddRows App.constructor
        (sampleActions ++ [Action.message (ForwardMsg.delta
          { id := 2
            type := DeltaType.newElement
              { reportId := none, body := ElementBody.text TextFormat.INFO "hi" } })])
      ).state.elements[2]? =
      some (some { reportId := some
                     (run false sampleAddRows App.constructor sampleActions).state.reportId
                   body := ElementBody.text TextFormat.INFO "hi" }) ∧
    (run false sampleAddRows App.constructor sampleActions).state.reportId = "run-1" :=
  ⟨by decide,
   (reachable_elements_stamped_or_local false sampleAddRows sampleAddRows_contract
      sampleActions).1,
   (reachable_elements_stamped_or_local false sampleAddRows sampleAddRows_contract
      sampleActions).2 2 { reportId := none, body := ElementBody.text TextFormat.INFO "hi" }
      (Or.inl (by decide)),
   by decide⟩

end Stamps

end Streamlit
